import Mathlib

/-!
# Face detection app: gallery, matcher, enrollment and recognition loop

A shallow embedding of `src/script.js`.  The global variables of the script become the
fields of `State`; every function of the script that touches the gallery, the matcher, the
photo buffer, the persisted record or the recognition timer becomes a function on `State`.

Conventions of the embedding

* The elements of a `Float32Array` and the distances computed from them are JavaScript
  numbers, `Num`: NaN, an infinity, or a finite value, which is a rational.  The numeral
  `0.6` of the script is the double it denotes, `pointSix`.  The conversions the script
  leaves to the platform, rounding to a 32-bit float and array-length coercion, and the
  Euclidean distance of the inference library are fields of `Platform`, and every general
  theorem holds for every platform.
* A string kept in `localStorage` is seen through the two things the script does with it:
  the truthiness test `if (stored)` and `JSON.parse(stored)`.  `JSON.stringify` produces a
  text that parses back to the JSON tree of the value it was given.
* Inside a `try` block every call that can throw has its throwing path, which leads to the
  `catch` block: `JSON.parse`, the typed array constructor, `updateStoredFacesDisplay` and
  `localStorage.setItem` (which throws when the storage is full, `storageFull`).  Outside a
  `try` block a call is taken to return normally.
* An asynchronous function runs to completion as one step.
-/

namespace FaceApp

/-! ## JSON values and typed arrays -/

/-- JSON tree, the result of a successful `JSON.parse`.  A number is kept at the value of
the double that `JSON.parse` returns; a numeral beyond the range of the doubles, which
`JSON.parse` reads as an infinity, is kept at its own value, and the conversions of
`Platform` take it from there. -/
inductive Json where
  | null
  | bool (b : Bool)
  | num (x : ℚ)
  | str (s : String)
  | arr (items : List Json)
  | obj (props : List (String × Json))

/-- A JavaScript number: NaN, an infinity, or a finite value.  The two zeros are not
distinguished. -/
inductive Num where
  | nan
  | posInf
  | negInf
  | fin (value : ℚ)
  deriving DecidableEq

instance (n : Nat) : OfNat Num n := ⟨Num.fin n⟩

/-- The operator `<` of JavaScript on numbers: false as soon as an operand is NaN. -/
def Num.lt : Num → Num → Bool
  | Num.fin a, Num.fin b => decide (a < b)
  | Num.negInf, Num.fin _ => true
  | Num.negInf, Num.posInf => true
  | Num.fin _, Num.posInf => true
  | _, _ => false

/-- The expression `Math.max(0, (1 - distance) * 100)` of the script. -/
def confidenceOf : Num → Num
  | Num.nan => Num.nan
  | Num.posInf => Num.fin 0
  | Num.negInf => Num.posInf
  | Num.fin d => Num.fin (max 0 ((1 - d) * 100))

/-- The double that the numeral `0.6` of the script denotes, 5404319552844595 / 2^53; it is
a little less than 3/5. -/
def pointSix : ℚ := 5404319552844595 / 9007199254740992

/-- The double that the numeral `0.59` denotes, 5314247560297185 / 2^53. -/
def pointFiveNine : ℚ := 5314247560297185 / 9007199254740992

/-- The double that the numeral `0.61` denotes, 5494391545392005 / 2^53. -/
def pointSixOne : ℚ := 5494391545392005 / 9007199254740992

/-- Contents of a `Float32Array`, in index order. -/
abbrev Float32Array := List Num

/-- Exceptions that the modelled code can raise. -/
inductive JSError where
  | parseError
  | typeError
  | rangeError
  | error
  deriving DecidableEq, Repr

/-- Platform behaviour that the script relies on without defining it. -/
structure Platform where
  /-- `ToNumber` of an array element (`none` is `undefined`) rounded to a 32-bit float,
  for an element whose conversion does not throw. -/
  toFloat32 : Option Json → Num
  /-- `ToIndex` of a primitive constructor argument; `none` when allocation throws. -/
  toIndex : Json → Option Nat
  /-- `ToLength` of the `length` property of an array-like, for a value whose conversion
  does not throw; `none` when allocation throws. -/
  toLength : Json → Option Nat
  /-- Euclidean distance between two descriptors, as the inference library computes it. -/
  euclideanDistance : Float32Array → Float32Array → Num

/-- Property read `o[key]` on the own properties of an object; `none` is `undefined`. -/
def getProp (key : String) : List (String × Json) → Option Json
  | [] => none
  | (k, v) :: rest => if k = key then some v else getProp key rest

mutual
/-- Whether converting a parsed value to a primitive (`ToString`, `ToNumber`, the argument
of `new Date`) throws a `TypeError`.  An object whose own property `toString` is not
callable, as every parsed value is, cannot be converted; an array is converted by joining
the conversions of its elements; everything else converts. -/
def toPrimitiveThrows : Json → Bool
  | Json.obj props => props.any (fun kv => decide (kv.1 = "toString"))
  | Json.arr items => anyPrimitiveThrows items
  | _ => false
/-- Whether the conversion of some element of a list of parsed values throws. -/
def anyPrimitiveThrows : List Json → Bool
  | [] => false
  | j :: rest => toPrimitiveThrows j || anyPrimitiveThrows rest
end

/-- Whether the conversion of a property value, `undefined` when absent, throws. -/
def propThrows : Option Json → Bool
  | some v => toPrimitiveThrows v
  | none => false

/-- What `JSON.stringify` writes for a number: NaN and the infinities become `null`. -/
def numToJson : Num → Json
  | Num.fin x => Json.num x
  | _ => Json.null

/-- Own enumerable properties of a `Float32Array`: the canonical index strings. -/
def indexProps : Nat → Float32Array → List (String × Json)
  | _, [] => []
  | i, x :: rest => (toString i, numToJson x) :: indexProps (i + 1) rest

/-- `JSON.stringify` applied to a `Float32Array`, as a JSON tree.  A typed array has no
`toJSON` and is not an `Array`, so it is written as a plain object keyed by index. -/
def float32ArrayToJson (d : Float32Array) : Json :=
  Json.obj (indexProps 0 d)

/-- `new Float32Array(desc)` for a value `desc` that came out of `JSON.parse`.  An array
is converted element by element, an object is read as an array-like through its `length`
property, a primitive is a length.  The conversion of an element, or of the `length`, to a
number throws a `TypeError` when the value cannot be converted to a primitive. -/
def newFloat32Array (P : Platform) : Json → Except JSError Float32Array
  | Json.arr items =>
    if anyPrimitiveThrows items then Except.error JSError.typeError
    else Except.ok (items.map (fun j => P.toFloat32 (some j)))
  | Json.obj props =>
    match getProp "length" props with
    | none => Except.ok []
    | some l =>
      if toPrimitiveThrows l then Except.error JSError.typeError
      else
        match P.toLength l with
        | none => Except.error JSError.rangeError
        | some n =>
          if (List.range n).any (fun i => propThrows (getProp (toString i) props)) then
            Except.error JSError.typeError
          else
            Except.ok ((List.range n).map (fun i => P.toFloat32 (getProp (toString i) props)))
  | prim =>
    match P.toIndex prim with
    | none => Except.error JSError.rangeError
    | some n => Except.ok (List.replicate n 0)

/-! ## Gallery entries -/

/-- One element of `storedFaces`: an object whose `descriptors` property is an array of
`Float32Array` and whose other own properties are JSON values. -/
structure StoredFace where
  /-- Own properties other than `descriptors`. -/
  props : List (String × Json)
  descriptors : List Float32Array

/-- Property read `face.name`. -/
def StoredFace.name (f : StoredFace) : Option Json := getProp "name" f.props

/-- `JSON.stringify` applied to one element of `storedFaces`.  Objects are only ever read
by key, so the position of `descriptors` among the properties is not tracked. -/
def faceToJson (f : StoredFace) : Json :=
  Json.obj (("descriptors", Json.arr (f.descriptors.map float32ArrayToJson)) :: f.props)

/-- `JSON.stringify(storedFaces)`, as a JSON tree. -/
def stringifyFaces (faces : List StoredFace) : Json :=
  Json.arr (faces.map faceToJson)

/-- `Array.prototype.map` with a callback that may throw. -/
def mapExcept {α β : Type} (f : α → Except JSError β) : List α → Except JSError (List β)
  | [] => Except.ok []
  | a :: rest =>
    match f a with
    | Except.error e => Except.error e
    | Except.ok b =>
      match mapExcept f rest with
      | Except.error e => Except.error e
      | Except.ok bs => Except.ok (b :: bs)

/-- The callback of `parsedFaces.map` in `loadStoredFaces`: a copy of `face` whose
`descriptors` property is `face.descriptors.map(desc => new Float32Array(desc))`.  Reading
`descriptors` off anything but an object, or calling `map` on anything but an array, throws. -/
def reviveFace (P : Platform) : Json → Except JSError StoredFace
  | Json.obj props =>
    match getProp "descriptors" props with
    | some (Json.arr descs) =>
      match mapExcept (newFloat32Array P) descs with
      | Except.error e => Except.error e
      | Except.ok ds =>
        Except.ok { props := props.filter (fun kv => kv.1 ≠ "descriptors"), descriptors := ds }
    | _ => Except.error JSError.typeError
  | _ => Except.error JSError.typeError

/-- The expression `parsedFaces.map(...)` of `loadStoredFaces`. -/
def reviveFaces (P : Platform) : Json → Except JSError (List StoredFace)
  | Json.arr faces => mapExcept (reviveFace P) faces
  | _ => Except.error JSError.typeError

/-- A string held in `localStorage`. -/
inductive StoredText where
  /-- The empty string: falsy, and rejected by `JSON.parse`. -/
  | empty
  /-- A non-empty string that `JSON.parse` rejects. -/
  | invalid
  /-- A string that `JSON.parse` accepts, with the value it yields. -/
  | json (value : Json)

/-- `JSON.parse`. -/
def jsonParse : StoredText → Except JSError Json
  | StoredText.json v => Except.ok v
  | _ => Except.error JSError.parseError

/-- Truthiness of a value returned by `localStorage.getItem`. -/
def truthyItem : Option StoredText → Bool
  | none => false
  | some StoredText.empty => false
  | some _ => true

/-! ## Program state -/

/-- Bounding box of a detection. -/
structure Box where
  x : ℚ
  y : ℚ
  width : ℚ
  height : ℚ
  deriving DecidableEq

/-- One result of the descriptor pass of the inference library
(`detectAllFaces(...).withFaceLandmarks().withFaceDescriptors()`).  `descriptor` is `none`
when the property is missing or is not a `Float32Array`. -/
structure FaceDetection where
  box : Box
  descriptor : Option Float32Array
  deriving DecidableEq

/-- One result of the age and gender pass (`detectAllFaces(...).withAgeAndGender()`). -/
structure AgeGender where
  age : ℚ
  gender : String
  genderProbability : ℚ
  deriving DecidableEq

/-- One element of `photoItem.detections`: a descriptor-pass detection extended with the
age, gender and gender probability merged in by `capturePhoto` (`none` is `null`). -/
structure Detection where
  box : Box
  descriptor : Option Float32Array
  age : Option ℚ
  gender : Option String
  genderProbability : Option ℚ
  deriving DecidableEq

/-- One element of `capturedPhotos`. -/
structure CapturedPhoto where
  id : Nat
  dataUrl : String
  detections : List Detection
  name : String
  deriving DecidableEq

/-- Object built by `new faceapi.LabeledFaceDescriptors(label, descriptors)`. -/
structure LabeledFaceDescriptors where
  label : String
  descriptors : List Float32Array
  deriving DecidableEq

/-- Object built by `new faceapi.FaceMatcher(labeledDescriptors, distanceThreshold)`. -/
structure FaceMatcher where
  labeledDescriptors : List LabeledFaceDescriptors
  distanceThreshold : Num
  deriving DecidableEq

/-- Result of `faceMatcher.findBestMatch`. -/
structure FaceMatch where
  label : String
  distance : Num
  deriving DecidableEq

/-- Content of the status line, as set by `updateStatus`. -/
structure Status where
  message : String
  type : String
  deriving DecidableEq

/-- Callbacks that the script hands to `setInterval`. -/
inductive TimerCallback where
  | detectFaces
  | recognizeFaces
  deriving DecidableEq

/-- An interval timer that has been set and not yet cleared. -/
structure Timer where
  id : Nat
  callback : TimerCallback
  deriving DecidableEq

/-- One element of the local `recognitionResults` array of `recognizeFaces`. -/
structure RecognitionResult where
  name : String
  distance : Num
  threshold : Num
  age : Option Int
  gender : Option String
  genderProbability : Option Int
  deriving DecidableEq

/-- One entry rendered by `updateRecognitionResultsDisplay`. -/
structure ResultItem where
  faceNumber : Nat
  name : String
  confidence : Num
  distance : Num
  ageGender : Option (String × Option Int × Int)
  recognized : Bool
  deriving DecidableEq

/-- Content of the `recognitionResults` element. -/
inductive ResultsView where
  | blank
  | noFaces
  | items (rows : List ResultItem)
  deriving DecidableEq

/-- A label drawn on the overlay canvas by `recognizeFaces`, with the box it belongs to. -/
structure OverlayLabel where
  box : Box
  label : String
  confidence : Num
  recognized : Bool
  ageGender : Option (String × Option Int × Int)
  deriving DecidableEq

/-- The global variables of the script, the persisted record, the interval timers and the
parts of the page that the modelled functions write. -/
structure State where
  stream : Bool
  isDetecting : Bool
  isRecognizing : Bool
  detectionInterval : Option Nat
  recognitionInterval : Option Nat
  faceMatcher : Option FaceMatcher
  storedFaces : List StoredFace
  capturedPhotos : List CapturedPhoto
  /-- The `storedFaces` item of `localStorage`; `none` when the key is absent. -/
  storedItem : Option StoredText
  /-- Whether `localStorage` is full, so that `setItem` throws `QuotaExceededError`. -/
  storageFull : Bool
  /-- Interval timers set and not cleared. -/
  timers : List Timer
  /-- The handle returned by the latest `setInterval`; handles are positive. -/
  lastTimerId : Nat
  personNameValue : String
  personNameDisabled : Bool
  trainBtnDisabled : Bool
  recognizeBtnDisabled : Bool
  stopRecognitionBtnDisabled : Bool
  detectBtnText : String
  status : Status
  loadingText : String
  loadingHidden : Bool
  /-- Messages shown by `showMessage`, oldest first. -/
  messages : List Status
  resultsView : ResultsView
  overlayBoxes : List Box
  overlayLabels : List OverlayLabel
  faceCountText : String

/-- The values the script gives its global variables when it is loaded. -/
def State.IsInitial (s : State) : Prop :=
  s.stream = false ∧ s.isDetecting = false ∧ s.isRecognizing = false ∧
  s.detectionInterval = none ∧ s.recognitionInterval = none ∧ s.faceMatcher = none ∧
  s.storedFaces = [] ∧ s.capturedPhotos = [] ∧ s.timers = []

/-! ## Helpers of the script -/

def updateStatus (s : State) (message : String) (type : String) : State :=
  { s with status := { message := message, type := type } }

def showMessage (s : State) (message : String) (type : String) : State :=
  { s with messages := s.messages ++ [{ message := message, type := type }] }

def showLoading (s : State) (message : String) : State :=
  { s with loadingText := message, loadingHidden := false }

def hideLoading (s : State) : State :=
  { s with loadingHidden := true }

/-- `setInterval(callback, 200)`: registers a timer under a fresh positive handle. -/
def setInterval (s : State) (callback : TimerCallback) : State × Nat :=
  ({ s with timers := s.timers ++ [{ id := s.lastTimerId + 1, callback := callback }],
            lastTimerId := s.lastTimerId + 1 }, s.lastTimerId + 1)

/-- `clearInterval(handle)`. -/
def clearInterval (s : State) (handle : Nat) : State :=
  { s with timers := s.timers.filter (fun t => t.id ≠ handle) }

/-- White space and line terminators removed by `String.prototype.trim`. -/
def isTrimChar (c : Char) : Bool :=
  c.toNat = 0x09 || c.toNat = 0x0A || c.toNat = 0x0B || c.toNat = 0x0C || c.toNat = 0x0D ||
  c.toNat = 0x20 || c.toNat = 0xA0 || c.toNat = 0x1680 ||
  (0x2000 ≤ c.toNat && c.toNat ≤ 0x200A) ||
  c.toNat = 0x2028 || c.toNat = 0x2029 || c.toNat = 0x202F || c.toNat = 0x205F ||
  c.toNat = 0x3000 || c.toNat = 0xFEFF

/-- `String.prototype.trim`. -/
def jsTrim (str : String) : String :=
  String.mk (((str.data.dropWhile isTrimChar).reverse.dropWhile isTrimChar).reverse)

/-- `Math.round`: the nearest integer, halves rounded up. -/
def mathRound (x : ℚ) : Int := Int.floor (x + 1 / 2)

/-- Truthiness of a number or `null`. -/
def truthyNum : Option ℚ → Bool
  | some x => decide (x ≠ 0)
  | none => false

/-- Truthiness of a string or `null`. -/
def truthyStr : Option String → Bool
  | some str => decide (str ≠ "")
  | none => false

/-- `x * 100` where `x` is a number or `null` (`null` converts to 0). -/
def timesHundred : Option ℚ → ℚ
  | some x => x * 100
  | none => 0

/-- `Array.prototype.splice(index, 1)` for an integer `index`: a negative index counts from
the end (clamped at 0), an index past the end deletes nothing. -/
def spliceOne {α : Type} (xs : List α) (index : Int) : List α :=
  let start : Int := if index < 0 then max ((xs.length : Int) + index) 0 else min index xs.length
  xs.eraseIdx start.toNat

/-! ## Persistence and matcher -/

/-- Function `saveStoredFaces` of the script, on a storage that accepts the write. -/
def saveStoredFaces (s : State) : State :=
  { s with storedItem := some (StoredText.json (stringifyFaces s.storedFaces)) }

/-- The call `saveStoredFaces()` inside a `try` block: `localStorage.setItem` throws
`QuotaExceededError` when the storage is full, and nothing is written. -/
def trySaveStoredFaces (s : State) : Except JSError State :=
  if s.storageFull then Except.error JSError.error else Except.ok (saveStoredFaces s)

/-- Whether `updateStoredFacesDisplay` throws on one gallery entry: it writes `imageSrc`,
`name`, `age` and `gender` into a template string and passes `timestamp` to `new Date`,
each of which converts the value to a primitive. -/
def displayThrows (face : StoredFace) : Bool :=
  propThrows (getProp "imageSrc" face.props) || propThrows (getProp "name" face.props) ||
  propThrows (getProp "age" face.props) || propThrows (getProp "gender" face.props) ||
  propThrows (getProp "timestamp" face.props)

/-- Function `updateStoredFacesDisplay` of the script, called inside a `try` block: it
renders every entry of `storedFaces` and throws a `TypeError` when a property it renders
cannot be converted to a primitive.  The container it fills is not part of the state. -/
def updateStoredFacesDisplay (s : State) : Except JSError State :=
  if s.storedFaces.any displayThrows then Except.error JSError.typeError else Except.ok s

/-- Modelled from the spec: the constructor `LabeledFaceDescriptors` of the inference
library, which is not part of the sources.  It takes a string label and a list of
descriptors; called as `new faceapi.LabeledFaceDescriptors(face.name, face.descriptors)`
with a `name` that is not a string it throws, which `updateFaceMatcher` catches. -/
def newLabeledFaceDescriptors (face : StoredFace) : Except JSError LabeledFaceDescriptors :=
  match face.name with
  | some (Json.str label) => Except.ok { label := label, descriptors := face.descriptors }
  | _ => Except.error JSError.error

/-- The value that `updateFaceMatcher` assigns to `faceMatcher`, as a function of
`storedFaces`: `null` for an empty gallery and when a constructor throws. -/
def buildMatcher (faces : List StoredFace) : Option FaceMatcher :=
  if faces.length = 0 then
    none
  else
    match mapExcept newLabeledFaceDescriptors faces with
    | Except.ok labeledDescriptors =>
      some { labeledDescriptors := labeledDescriptors, distanceThreshold := Num.fin pointSix }
    | Except.error _ => none

/-- Function `updateFaceMatcher` of the script. -/
def updateFaceMatcher (s : State) : State :=
  { s with faceMatcher := buildMatcher s.storedFaces }

/-- Function `loadStoredFaces` of the script. -/
def loadStoredFaces (P : Platform) (s : State) : State :=
  match s.storedItem with
  | none => s
  | some stored =>
    if truthyItem (some stored) then
      match jsonParse stored with
      | Except.error _ => { s with storedItem := none, storedFaces := [] }
      | Except.ok parsedFaces =>
        match reviveFaces P parsedFaces with
        | Except.error _ => { s with storedItem := none, storedFaces := [] }
        | Except.ok faces =>
          let s1 := updateFaceMatcher { s with storedFaces := faces }
          match updateStoredFacesDisplay s1 with
          | Except.error _ => { s1 with storedItem := none, storedFaces := [] }
          | Except.ok s2 =>
            if s2.storedFaces.length > 0 then { s2 with recognizeBtnDisabled := false } else s2
    else s

/-- Function `removeStoredFace` of the script.  It has no `try` block: its calls of
`saveStoredFaces` and `updateStoredFacesDisplay` are taken to return normally. -/
def removeStoredFace (s : State) (index : Int) : State :=
  let s1 := { s with storedFaces := spliceOne s.storedFaces index }
  let s2 := updateFaceMatcher (saveStoredFaces s1)
  let s3 := if s2.storedFaces.length = 0 then { s2 with recognizeBtnDisabled := true } else s2
  showMessage s3 "Face removed successfully." "success"

/-- Function `clearAllData` of the script; `confirmed` is the answer to the `confirm` dialog. -/
def clearAllData (s : State) (confirmed : Bool) : State :=
  if confirmed then
    showMessage
      { s with storedFaces := [], faceMatcher := none, storedItem := none,
               recognizeBtnDisabled := true }
      "All data cleared successfully." "success"
  else s

/-! ## Capture and enrollment -/

/-- What `capturePhoto` reads from outside the script: the state of the video element, the
two passes of the inference library over the captured frame, the encoded frame and the
clock. -/
structure CaptureInput where
  paused : Bool
  ended : Bool
  detections : List FaceDetection
  ageGenderDetections : List AgeGender
  dataUrl : String
  now : Nat

/-- The callback of `detections.map` in `capturePhoto`, at position `index`. -/
def combineDetection (ageGenderDetections : List AgeGender) (index : Nat)
    (detection : FaceDetection) : Detection :=
  match ageGenderDetections.get? index with
  | some ageGender =>
    { box := detection.box, descriptor := detection.descriptor, age := some ageGender.age,
      gender := some ageGender.gender, genderProbability := some ageGender.genderProbability }
  | none =>
    { box := detection.box, descriptor := detection.descriptor, age := none,
      gender := none, genderProbability := none }

/-- `detections.map((detection, index) => ...)` of `capturePhoto`, from position `index`. -/
def combineFrom (ageGenderDetections : List AgeGender) : Nat → List FaceDetection → List Detection
  | _, [] => []
  | index, detection :: rest =>
    combineDetection ageGenderDetections index detection ::
      combineFrom ageGenderDetections (index + 1) rest

/-- Function `capturePhoto` of the script. -/
def capturePhoto (s : State) (input : CaptureInput) : State :=
  if !s.stream || input.paused || input.ended then
    updateStatus s "Please start webcam first." "error"
  else if input.detections.length = 0 then
    updateStatus s "No faces detected in the photo. Please try again." "error"
  else
    let combinedDetections := combineFrom input.ageGenderDetections 0 input.detections
    let photoItem : CapturedPhoto :=
      { id := input.now, dataUrl := input.dataUrl, detections := combinedDetections, name := "" }
    let s1 := { s with capturedPhotos := s.capturedPhotos ++ [photoItem],
                       personNameDisabled := false, trainBtnDisabled := false }
    updateStatus s1
      ("Photo captured! " ++ toString combinedDetections.length ++
        " face(s) detected. Enter a name and click \"Train Recognition\".") "info"

/-- Function `removeCapturedPhoto` of the script. -/
def removeCapturedPhoto (s : State) (index : Int) : State :=
  let s1 := { s with capturedPhotos := spliceOne s.capturedPhotos index }
  if s1.capturedPhotos.length = 0 then
    { s1 with personNameDisabled := true, trainBtnDisabled := true }
  else s1

/-- The local variables `descriptors`, `ageInfo` and `genderInfo` of `trainFaces`. -/
structure Extracted where
  descriptors : List Float32Array
  ageInfo : String
  genderInfo : String

/-- Body of the inner loop of `trainFaces`, for one detection. -/
def extractDetection (acc : Extracted) (detection : Detection) : Extracted :=
  match detection.descriptor with
  | none => acc
  | some descriptor =>
    let acc1 := { acc with descriptors := acc.descriptors ++ [descriptor] }
    if truthyNum detection.age && truthyStr detection.gender then
      { acc1 with
        ageInfo := "Age: " ++ toString (mathRound (detection.age.getD 0)),
        genderInfo := detection.gender.getD "" ++ " (" ++
          toString (mathRound (timesHundred detection.genderProbability)) ++ "%)" }
    else acc1

/-- Body of the outer loop of `trainFaces`, for one photo. -/
def extractPhoto (acc : Extracted) (photo : CapturedPhoto) : Extracted :=
  photo.detections.foldl extractDetection acc

/-- The two nested loops of `trainFaces` over `capturedPhotos`. -/
def extractAll (photos : List CapturedPhoto) : Extracted :=
  photos.foldl extractPhoto { descriptors := [], ageInfo := "", genderInfo := "" }

/-- The object `faceData` built by `trainFaces`. -/
def makeFaceData (personName : String) (e : Extracted) (imageSrc : String) (now : Nat) :
    StoredFace :=
  { props := [("name", Json.str personName), ("imageSrc", Json.str imageSrc),
              ("age", Json.str e.ageInfo), ("gender", Json.str e.genderInfo),
              ("timestamp", Json.num now)],
    descriptors := e.descriptors }

/-- Function `trainFaces` of the script; `now` is the value of `Date.now()`.  The two calls
of its `try` block that can throw, `saveStoredFaces` and `updateStoredFacesDisplay`, lead
to its `catch` block, which hides the loading overlay and reports the error (the text of
the exception is not kept); both come after the push onto `storedFaces`. -/
def trainFaces (s : State) (now : Nat) : State :=
  let personName := jsTrim s.personNameValue
  if personName = "" then
    updateStatus s "Please enter a name for the person." "error"
  else if s.capturedPhotos.length = 0 then
    updateStatus s "No photos captured. Please capture some photos first." "error"
  else
    let s1 := showLoading s "Training face recognition model..."
    let e := extractAll s1.capturedPhotos
    if e.descriptors.length = 0 then
      updateStatus (hideLoading s1)
        "No valid face descriptors found. Please try capturing photos again." "error"
    else
      let imageSrc := match s1.capturedPhotos.head? with
        | some photo => photo.dataUrl
        | none => ""
      let faceData := makeFaceData personName e imageSrc now
      let s2 := { s1 with storedFaces := s1.storedFaces ++ [faceData] }
      match trySaveStoredFaces s2 with
      | Except.error _ => updateStatus (hideLoading s2) "Error training faces" "error"
      | Except.ok saved =>
        match updateStoredFacesDisplay saved with
        | Except.error _ => updateStatus (hideLoading saved) "Error training faces" "error"
        | Except.ok shown =>
          let s3 := updateFaceMatcher shown
          let s4 := { s3 with capturedPhotos := [], personNameValue := "",
                              personNameDisabled := true, trainBtnDisabled := true }
          let s5 := updateStatus (hideLoading s4)
            ("Successfully trained face recognition for " ++ personName ++ "!") "info"
          if s5.storedFaces.length > 0 then { s5 with recognizeBtnDisabled := false } else s5

/-! ## Recognition loop -/

/-- Function `startRecognition` of the script. -/
def startRecognition (s : State) : State :=
  if s.storedFaces.length = 0 then
    updateStatus s "No trained faces available. Please train some faces first." "error"
  else
    let s1 := { s with isRecognizing := true, recognizeBtnDisabled := true,
                       stopRecognitionBtnDisabled := false }
    let s2 := updateStatus s1 "Face recognition started!" "info"
    let (s3, handle) := setInterval s2 TimerCallback.recognizeFaces
    { s3 with recognitionInterval := some handle }

/-- Function `stopRecognition` of the script. -/
def stopRecognition (s : State) : State :=
  let s1 :=
    match s.recognitionInterval with
    | some handle =>
      if handle ≠ 0 then { clearInterval s handle with recognitionInterval := none } else s
    | none => s
  let s2 := { s1 with isRecognizing := false, recognizeBtnDisabled := false,
                      stopRecognitionBtnDisabled := true, resultsView := ResultsView.blank }
  updateStatus s2 "Face recognition stopped." "info"

/-- A click on the `recognizeBtn` button: a disabled button does not run its handler. -/
def clickRecognize (s : State) : State :=
  if s.recognizeBtnDisabled then s else startRecognition s

/-- A click on the `stopRecognitionBtn` button. -/
def clickStopRecognition (s : State) : State :=
  if s.stopRecognitionBtnDisabled then s else stopRecognition s

/-- A click on the `trainBtn` button. -/
def clickTrain (s : State) (now : Nat) : State :=
  if s.trainBtnDisabled then s else trainFaces s now

/-- Function `toggleDetection` of the script. -/
def toggleDetection (s : State) : State :=
  if s.isDetecting then
    let s1 :=
      match s.detectionInterval with
      | some handle =>
        if handle ≠ 0 then { clearInterval s handle with detectionInterval := none } else s
      | none => s
    let s2 := { s1 with isDetecting := false, detectBtnText := "Start Detection",
                        overlayBoxes := [], overlayLabels := [], faceCountText := "" }
    updateStatus s2 "Face detection stopped." "info"
  else
    let s1 := { s with isDetecting := true, detectBtnText := "Stop Detection" }
    let s2 := updateStatus s1 "Face detection started!" "info"
    let (s3, handle) := setInterval s2 TimerCallback.detectFaces
    { s3 with detectionInterval := some handle }

/-- Every indexed descriptor of a matcher with its label and its distance to the query, in
gallery order. -/
def FaceMatcher.candidates (P : Platform) (m : FaceMatcher) (query : Float32Array) :
    List FaceMatch :=
  m.labeledDescriptors.flatMap (fun ld =>
    ld.descriptors.map (fun d => { label := ld.label, distance := P.euclideanDistance d query }))

/-- The candidate of minimum distance, the first encountered among equals. -/
def bestCandidate : List FaceMatch → Option FaceMatch
  | [] => none
  | c :: rest =>
    some (rest.foldl
      (fun best curr => if Num.lt curr.distance best.distance then curr else best) c)

/-- Modelled from the spec: `findBestMatch` of the inference library, which is not part of
the sources.  The query is compared with every indexed descriptor, the minimum distance is
selected, and the owner of that descriptor is returned when the distance is strictly below
the threshold, the label `unknown` with the same distance otherwise.  Nothing is returned
when no descriptor is indexed. -/
def FaceMatcher.findBestMatch (P : Platform) (m : FaceMatcher) (query : Float32Array) :
    Option FaceMatch :=
  match bestCandidate (m.candidates P query) with
  | none => none
  | some best =>
    if Num.lt best.distance m.distanceThreshold then some best
    else some { label := "unknown", distance := best.distance }

/-- What one tick of `recognizeFaces` reads from outside the script. -/
structure TickInput where
  paused : Bool
  ended : Bool
  faceApiLoaded : Bool
  detections : List FaceDetection
  ageGenderDetections : List AgeGender
  /-- `faceapi.resizeResults` on one box, for the current canvas size. -/
  resizeBox : Box → Box

/-- The object pushed onto `recognitionResults` by `recognizeFaces` for a match `found`
and the age and gender detection at the same index. -/
def makeResult (found : FaceMatch) (ageGender : Option AgeGender) : RecognitionResult :=
  { name := found.label,
    distance := found.distance,
    threshold := Num.fin pointSix,
    age := ageGender.map (fun a => mathRound a.age),
    gender := ageGender.map (fun a => a.gender),
    genderProbability := ageGender.map (fun a => mathRound (a.genderProbability * 100)) }

/-- Body of the `for` loop of `recognizeFaces` at index `i`; `none` when the body throws. -/
def recognizeAt (P : Platform) (matcher : FaceMatcher) (input : TickInput)
    (results : List RecognitionResult) (i : Nat) : Option (List RecognitionResult) :=
  match input.detections.get? i with
  | none => none
  | some detection =>
    let ageGender := input.ageGenderDetections.get? i
    match detection.descriptor with
    | none => some results
    | some descriptor =>
      match matcher.findBestMatch P descriptor with
      | none => none
      | some found => some (results ++ [makeResult found ageGender])

/-- The `for` loop of `recognizeFaces`: indices `i`, `i + 1`, ... for `count` iterations. -/
def recognizeLoop (P : Platform) (matcher : FaceMatcher) (input : TickInput) :
    Nat → Nat → List RecognitionResult → Option (List RecognitionResult)
  | 0, _, results => some results
  | count + 1, i, results =>
    match recognizeAt P matcher input results i with
    | none => none
    | some results1 => recognizeLoop P matcher input count (i + 1) results1

/-- Truthiness of `result.age && result.gender` for a recognition result. -/
def hasAgeGender (result : RecognitionResult) : Bool :=
  (match result.age with
    | some a => decide (a ≠ 0)
    | none => false) &&
  truthyStr result.gender

/-- The age and gender line shown for a result, when there is one. -/
def ageGenderLine (result : RecognitionResult) : Option (String × Option Int × Int) :=
  if hasAgeGender result then
    some (result.gender.getD "", result.genderProbability, result.age.getD 0)
  else none

/-- The callback of `results.forEach` in `updateRecognitionResultsDisplay`. -/
def resultItem (index : Nat) (result : RecognitionResult) : ResultItem :=
  let isRecognized := Num.lt result.distance result.threshold
  let confidence := confidenceOf result.distance
  { faceNumber := index + 1,
    name := if isRecognized then result.name else "Unknown",
    confidence := confidence,
    distance := result.distance,
    ageGender := ageGenderLine result,
    recognized := isRecognized }

/-- `results.forEach((result, index) => ...)`, from position `index`. -/
def resultItemsFrom : Nat → List RecognitionResult → List ResultItem
  | _, [] => []
  | index, result :: rest => resultItem index result :: resultItemsFrom (index + 1) rest

/-- Function `updateRecognitionResultsDisplay` of the script. -/
def updateRecognitionResultsDisplay (s : State) (results : List RecognitionResult) : State :=
  if results.length = 0 then
    { s with resultsView := ResultsView.noFaces }
  else
    { s with resultsView := ResultsView.items (resultItemsFrom 0 results) }

/-- The callback of `resizedDetections.slice(0, 2).forEach` in `recognizeFaces`: the label
drawn for the detection at position `index`. -/
def overlayLabel (results : List RecognitionResult) (index : Nat) (box : Box) : OverlayLabel :=
  match results.get? index with
  | some result =>
    let isRecognized := Num.lt result.distance result.threshold
    { box := box,
      label := if isRecognized then result.name else "Unknown",
      confidence := confidenceOf result.distance,
      recognized := isRecognized,
      ageGender := ageGenderLine result }
  | none =>
    { box := box, label := "Unknown", confidence := 0, recognized := false, ageGender := none }

/-- `boxes.forEach((detection, index) => ...)` drawing labels, from position `index`. -/
def overlayLabelsFrom (results : List RecognitionResult) : Nat → List Box → List OverlayLabel
  | _, [] => []
  | index, box :: rest =>
    overlayLabel results index box :: overlayLabelsFrom results (index + 1) rest

/-- Function `recognizeFaces` of the script: one tick of the recognition timer. -/
def recognizeFaces (P : Platform) (s : State) (input : TickInput) : State :=
  if !s.isRecognizing || input.paused || input.ended then s
  else if !input.faceApiLoaded then s
  else
    match s.faceMatcher with
    | none => s
    | some matcher =>
      let s1 := { s with overlayBoxes := [], overlayLabels := [] }
      let maxFaces := min input.detections.length 2
      match recognizeLoop P matcher input maxFaces 0 [] with
      | none => s1
      | some results =>
        if input.detections.length > 0 then
          let resized := input.detections.map (fun d => input.resizeBox d.box)
          let s2 := { s1 with overlayBoxes := resized,
                              overlayLabels := overlayLabelsFrom results 0 (resized.take 2) }
          updateRecognitionResultsDisplay s2 results
        else s1

/-! ## Webcam -/

/-- Function `startWebcam` of the script; `granted` tells whether `getUserMedia` resolved. -/
def startWebcam (s : State) (granted : Bool) : State :=
  if granted then
    updateStatus { s with stream := true }
      "Webcam started! Click \"Start Detection\" to begin face detection." "info"
  else
    updateStatus s "Error starting webcam" "error"

/-- Function `stopWebcam` of the script. -/
def stopWebcam (s : State) : State :=
  let s1 := { s with stream := false }
  let s2 := if s1.isDetecting then toggleDetection s1 else s1
  let s3 := if s2.isRecognizing then stopRecognition s2 else s2
  let s4 := { s3 with overlayBoxes := [], overlayLabels := [],
                      detectBtnText := "Start Detection", faceCountText := "" }
  updateStatus s4 "Webcam stopped. Click \"Start Webcam\" to begin again." "info"

/-! ## Runs of the program -/

/-- The events that drive the script. -/
inductive Action where
  | loadStoredFaces
  | startWebcam (granted : Bool)
  | stopWebcam
  | toggleDetection
  | capturePhoto (input : CaptureInput)
  | removeCapturedPhoto (index : Int)
  | typeName (value : String)
  | trainFaces (now : Nat)
  | removeStoredFace (index : Int)
  | clearAllData (confirmed : Bool)
  | startRecognition
  | stopRecognition
  | recognizeFaces (input : TickInput)
  /-- The storage becomes full, or gets room again (not an event of the script). -/
  | setStorageFull (full : Bool)

/-- Effect of one event. -/
def step (P : Platform) (s : State) : Action → State
  | Action.loadStoredFaces => loadStoredFaces P s
  | Action.startWebcam granted => startWebcam s granted
  | Action.stopWebcam => stopWebcam s
  | Action.toggleDetection => toggleDetection s
  | Action.capturePhoto input => capturePhoto s input
  | Action.removeCapturedPhoto index => removeCapturedPhoto s index
  | Action.typeName value => { s with personNameValue := value }
  | Action.trainFaces now => trainFaces s now
  | Action.removeStoredFace index => removeStoredFace s index
  | Action.clearAllData confirmed => clearAllData s confirmed
  | Action.startRecognition => startRecognition s
  | Action.stopRecognition => stopRecognition s
  | Action.recognizeFaces input => recognizeFaces P s input
  | Action.setStorageFull full => { s with storageFull := full }

/-- The state after a sequence of events. -/
def run (P : Platform) (s : State) (actions : List Action) : State :=
  actions.foldl (step P) s

/-- States reachable from `s0` by a sequence of events. -/
def ReachableFrom (P : Platform) (s0 s : State) : Prop :=
  ∃ actions : List Action, run P s0 actions = s

/-! ## Concrete data for the examples -/

/-- A platform used to evaluate the script on concrete inputs.  Numbers that a 32-bit float
represents exactly are converted to themselves; the distance is 0 between equal vectors, as
the Euclidean distance is, and is not used on other pairs. -/
def examplePlatform : Platform :=
  { toFloat32 := fun j =>
      match j with
      | some (Json.num x) => Num.fin x
      | some (Json.bool true) => 1
      | some (Json.bool false) => 0
      | some Json.null => 0
      | _ => Num.nan,
    toIndex := fun j =>
      match j with
      | Json.num x => if 0 ≤ x then some (Int.toNat (Int.floor x)) else none
      | _ => some 0,
    toLength := fun j =>
      match j with
      | Json.num x => some (Int.toNat (Int.floor x))
      | _ => some 0,
    euclideanDistance := fun a b => if a = b then 0 else 1 }

/-- The state of a freshly loaded page whose `localStorage` item is `item`. -/
def initialState (item : Option StoredText) : State :=
  { stream := false, isDetecting := false, isRecognizing := false,
    detectionInterval := none, recognitionInterval := none, faceMatcher := none,
    storedFaces := [], capturedPhotos := [], storedItem := item, storageFull := false,
    timers := [],
    lastTimerId := 0, personNameValue := "", personNameDisabled := true,
    trainBtnDisabled := true, recognizeBtnDisabled := true,
    stopRecognitionBtnDisabled := true, detectBtnText := "Start Detection",
    status := { message := "", type := "info" }, loadingText := "", loadingHidden := true,
    messages := [], resultsView := ResultsView.blank, overlayBoxes := [],
    overlayLabels := [], faceCountText := "" }

/-- A descriptor as the inference library produces them: 128 elements. -/
def sampleDescriptor : Float32Array := List.replicate 128 (Num.fin (1 / 2))

/-- A gallery entry as `trainFaces` builds it, for a person named `personName`. -/
def sampleFace (personName : String) : StoredFace :=
  makeFaceData personName { descriptors := [sampleDescriptor], ageInfo := "", genderInfo := "" }
    "data:image/jpeg;base64,AA==" 0

/-- A running page whose gallery is `faces`, with the matcher built from it. -/
def galleryState (faces : List StoredFace) : State :=
  { initialState none with storedFaces := faces, faceMatcher := buildMatcher faces,
                           recognizeBtnDisabled := false }

/-! ## Definitions used in the statements -/

/-- What a gallery entry becomes when it is saved and loaded again. -/
def reloaded (f : StoredFace) : StoredFace :=
  { props := f.props.filter (fun kv => kv.1 ≠ "descriptors"),
    descriptors := f.descriptors.map (fun _ => []) }

/-- The descriptors carried by the buffered photos: photo by photo, and inside a photo
detection by detection, every descriptor that is a `Float32Array`. -/
def photoDescriptors (photos : List CapturedPhoto) : List Float32Array :=
  photos.flatMap (fun photo => photo.detections.filterMap (fun d => d.descriptor))

/-- A buffer for the examples: one photo with two faces and one photo with one face. -/
def samplePhotos : List CapturedPhoto :=
  [{ id := 1, dataUrl := "data:image/jpeg;base64,AA==", name := "",
     detections := [
       { box := ⟨0, 0, 10, 10⟩, descriptor := some [1, 2], age := none, gender := none,
         genderProbability := none },
       { box := ⟨20, 0, 10, 10⟩, descriptor := some [3, 4], age := none, gender := none,
         genderProbability := none }] },
   { id := 2, dataUrl := "data:image/jpeg;base64,AQ==", name := "",
     detections := [
       { box := ⟨0, 0, 10, 10⟩, descriptor := some [5, 6], age := none, gender := none,
         genderProbability := none }] }]

/-- A buffer for the examples: one photo whose only detection has no descriptor. -/
def blankPhotos : List CapturedPhoto :=
  [{ id := 1, dataUrl := "data:image/jpeg;base64,AA==", name := "",
     detections := [
       { box := ⟨0, 0, 10, 10⟩, descriptor := none, age := none, gender := none,
         genderProbability := none }] }]

/-- A capture of one face, for the examples. -/
def sampleCapture : CaptureInput :=
  { paused := false, ended := false,
    detections := [{ box := ⟨0, 0, 10, 10⟩, descriptor := some sampleDescriptor }],
    ageGenderDetections := [], dataUrl := "data:image/jpeg;base64,AA==", now := 5 }

/-- The recognition timers among the active timers. -/
def recognitionTimers (s : State) : List Timer :=
  s.timers.filter (fun t => decide (t.callback = TimerCallback.recognizeFaces))

/-- A persisted record with one identity whose only descriptor has three elements. -/
def shortDescriptorRecord : StoredText :=
  StoredText.json (Json.arr [Json.obj [
    ("name", Json.str "Alice"),
    ("descriptors", Json.arr [Json.arr [Json.num 1, Json.num 2, Json.num 3]]),
    ("imageSrc", Json.str "data:image/jpeg;base64,AA=="),
    ("age", Json.str ""), ("gender", Json.str ""), ("timestamp", Json.num 0)]])

/-- An event that changes neither `storedFaces`, nor `faceMatcher`, nor the persisted
record, nor the room left in the storage. -/
def SameGallery (s t : State) : Prop :=
  t.storedFaces = s.storedFaces ∧ t.faceMatcher = s.faceMatcher ∧
  t.storedItem = s.storedItem ∧ t.storageFull = s.storageFull

/-- The ways in which an event of the script can change `storedFaces`, `faceMatcher` and
the persisted record: not at all; a load in which parsing or conversion throws; a load in
which the display throws, after the matcher was built; a load that succeeds; a removal; an
enrollment that completes; an enrollment that ends in the `catch` block, after the push;
a clear. -/
def GalleryStep (P : Platform) (s t : State) : Prop :=
  t.storageFull = s.storageFull ∧
  ((t.storedFaces = s.storedFaces ∧ t.faceMatcher = s.faceMatcher ∧
      t.storedItem = s.storedItem) ∨
    ((s.storedItem = some StoredText.invalid ∨
        ∃ v e, s.storedItem = some (StoredText.json v) ∧ reviveFaces P v = Except.error e) ∧
      t.storedFaces = [] ∧ t.faceMatcher = s.faceMatcher ∧ t.storedItem = none) ∨
    (∃ v faces, s.storedItem = some (StoredText.json v) ∧
      reviveFaces P v = Except.ok faces ∧ faces.any displayThrows = true ∧
      t.storedFaces = [] ∧ t.faceMatcher = buildMatcher faces ∧ t.storedItem = none) ∨
    (∃ v faces, s.storedItem = some (StoredText.json v) ∧
      reviveFaces P v = Except.ok faces ∧ faces.any displayThrows = false ∧
      t.storedFaces = faces ∧ t.faceMatcher = buildMatcher faces ∧
      t.storedItem = s.storedItem) ∨
    (∃ index, t.storedFaces = spliceOne s.storedFaces index ∧
      t.faceMatcher = buildMatcher (spliceOne s.storedFaces index) ∧
      t.storedItem = some (StoredText.json (stringifyFaces (spliceOne s.storedFaces index)))) ∨
    (∃ face, face.descriptors ≠ [] ∧ displayThrows face = false ∧
      s.storageFull = false ∧ s.storedFaces.any displayThrows = false ∧
      t.storedFaces = s.storedFaces ++ [face] ∧
      t.faceMatcher = buildMatcher (s.storedFaces ++ [face]) ∧
      t.storedItem = some (StoredText.json (stringifyFaces (s.storedFaces ++ [face])))) ∨
    (∃ face, face.descriptors ≠ [] ∧
      (s.storageFull = true ∨ s.storedFaces.any displayThrows = true) ∧
      t.storedFaces = s.storedFaces ++ [face] ∧ t.faceMatcher = s.faceMatcher ∧
      (t.storedItem = s.storedItem ∨
        t.storedItem = some (StoredText.json (stringifyFaces (s.storedFaces ++ [face]))))) ∨
    (t.storedFaces = [] ∧ t.faceMatcher = none ∧ t.storedItem = none))

/-- A persisted record that `loadStoredFaces` cannot load: `JSON.parse` throws, or the
conversion of the parsed value throws. -/
def LoadFails (P : Platform) (item : Option StoredText) : Prop :=
  item = some StoredText.invalid ∨
  ∃ v e, item = some (StoredText.json v) ∧ reviveFaces P v = Except.error e

/-- A persisted record with one identity that has a descriptor and no `name`. -/
def namelessRecord : StoredText :=
  StoredText.json (Json.arr [Json.obj [
    ("descriptors", Json.arr [Json.arr [Json.num 1, Json.num 2, Json.num 3]]),
    ("imageSrc", Json.str "data:image/jpeg;base64,AA==")]])

/-- Every entry that the persisted record loads to can be rendered by
`updateStoredFacesDisplay`.  It holds of an absent record, of a record that cannot be
loaded, and of every record that the script saved from entries it could render. -/
def DisplaySafe (P : Platform) (item : Option StoredText) : Prop :=
  ∀ v faces, item = some (StoredText.json v) → reviveFaces P v = Except.ok faces →
    faces.any displayThrows = false

/-- The storage has room, the matcher is the one built from the gallery, every entry of
the gallery and of the persisted record can be rendered, and the matcher is `null` while
the persisted record is one that cannot be loaded. -/
def MatcherInv (P : Platform) (s : State) : Prop :=
  s.storageFull = false ∧
  s.faceMatcher = buildMatcher s.storedFaces ∧
  s.storedFaces.any displayThrows = false ∧
  DisplaySafe P s.storedItem ∧
  (LoadFails P s.storedItem → s.faceMatcher = none)

/-- A persisted record with the identity "Alice", one descriptor, and an `imageSrc` that
is an object with an own property `toString`. -/
def unrenderableRecord : StoredText :=
  StoredText.json (Json.arr [Json.obj [
    ("name", Json.str "Alice"),
    ("descriptors", Json.arr [Json.arr [Json.num 1, Json.num 2, Json.num 3]]),
    ("imageSrc", Json.obj [("toString", Json.num 0)])]])

/-- A run for the examples: load the persisted record, start the webcam, capture one
face, type the name "Bob" and enroll. -/
def sampleRun : List Action :=
  [Action.loadStoredFaces, Action.startWebcam true, Action.capturePhoto sampleCapture,
   Action.typeName "Bob", Action.trainFaces 7]

/-- Every identity that the persisted record loads to has at least one descriptor.  It
holds of an absent record, of a record that cannot be loaded, and of every record that the
script saved from a gallery with that property. -/
def StorageGood (P : Platform) (item : Option StoredText) : Prop :=
  ∀ v faces, item = some (StoredText.json v) → reviveFaces P v = Except.ok faces →
    ∀ f ∈ faces, f.descriptors ≠ []

/-- A persisted record with one identity whose list of descriptors is empty. -/
def emptyIdentityRecord : StoredText :=
  StoredText.json (Json.arr [Json.obj [
    ("name", Json.str "Alice"), ("descriptors", Json.arr []),
    ("imageSrc", Json.str "data:image/jpeg;base64,AA=="),
    ("age", Json.str ""), ("gender", Json.str ""), ("timestamp", Json.num 0)]])

/-- Every identity of the gallery has a descriptor, and so has every identity that the
persisted record loads to. -/
def DescriptorInv (P : Platform) (s : State) : Prop :=
  (∀ f ∈ s.storedFaces, f.descriptors ≠ []) ∧ StorageGood P s.storedItem

/-- A frame with three faces, each showing the sample descriptor. -/
def threeFaceTick : TickInput :=
  { paused := false, ended := false, faceApiLoaded := true,
    detections := [
      { box := ⟨0, 0, 10, 10⟩, descriptor := some sampleDescriptor },
      { box := ⟨20, 0, 10, 10⟩, descriptor := some sampleDescriptor },
      { box := ⟨40, 0, 10, 10⟩, descriptor := some sampleDescriptor }],
    ageGenderDetections := [], resizeBox := fun box => box }

/-- A run for the examples: "Bob" is enrolled as in `sampleRun`, recognition is started,
one tick sees a frame with three faces that show the descriptor of "Bob", and then all
data is cleared, the recognition loop still running. -/
def staleRun : List Action :=
  sampleRun ++ [Action.startRecognition, Action.recognizeFaces threeFaceTick,
    Action.clearAllData true]

/-- The page after `staleRun`, from a page without persisted record. -/
def staleState : State :=
  run examplePlatform (initialState none) staleRun

/-- The example platform with a distance that is the double 0.6 between any two vectors. -/
def borderPlatform : Platform :=
  { examplePlatform with euclideanDistance := fun _ _ => Num.fin pointSix }

/-- The matcher built from a gallery that holds the sample identity "Alice". -/
def aliceMatcher : FaceMatcher :=
  { labeledDescriptors := [{ label := "Alice", descriptors := [sampleDescriptor] }],
    distanceThreshold := Num.fin pointSix }

/-- A page with the identity "Alice" in the gallery and the recognition loop running. -/
def runningState : State :=
  startRecognition (galleryState [sampleFace "Alice"])

/-- The result for the detection at position `i` of a frame: none when the detection has
no descriptor, the matcher's answer to the detection's own descriptor otherwise, together
with the age and gender detection at the same position. -/
def resultFor (P : Platform) (matcher : FaceMatcher) (input : TickInput) (i : Nat) :
    Option RecognitionResult :=
  (input.detections.get? i).bind (fun detection =>
    detection.descriptor.bind (fun descriptor =>
      (matcher.findBestMatch P descriptor).map (fun found =>
        makeResult found (input.ageGenderDetections.get? i))))

/-- The results for the first two detections of a frame, in detection order. -/
def cappedResults (P : Platform) (matcher : FaceMatcher) (input : TickInput) :
    List RecognitionResult :=
  (List.range (min 2 input.detections.length)).filterMap (resultFor P matcher input)

/-- A detection from which `trainFaces` takes the age and gender labels: it has a
descriptor, an age and a gender. -/
def hasLabels (d : Detection) : Bool :=
  d.descriptor.isSome && (truthyNum d.age && truthyStr d.gender)

/-- The age and gender labels that `trainFaces` computes from one detection. -/
def labelsOf (d : Detection) : String × String :=
  ("Age: " ++ toString (mathRound (d.age.getD 0)),
   d.gender.getD "" ++ " (" ++ toString (mathRound (timesHundred d.genderProbability)) ++ "%)")

/-- All detections of the buffered photos, in photo order and then detection order. -/
def allDetections (photos : List CapturedPhoto) : List Detection :=
  photos.flatMap (fun photo => photo.detections)

/-- The labels of the first detection that has a descriptor, an age and a gender; empty
strings when there is none. -/
def firstLabels (photos : List CapturedPhoto) : String × String :=
  match (allDetections photos).find? hasLabels with
  | some d => labelsOf d
  | none => ("", "")

/-- The labels of the last detection that has a descriptor, an age and a gender; empty
strings when there is none. -/
def lastLabels (photos : List CapturedPhoto) : String × String :=
  match (allDetections photos).reverse.find? hasLabels with
  | some d => labelsOf d
  | none => ("", "")

/-- A buffer for the examples: one photo with two faces, a man of about 30 and a woman of
52, both with a descriptor. -/
def twoPeoplePhotos : List CapturedPhoto :=
  [{ id := 1, dataUrl := "data:image/jpeg;base64,AA==", name := "",
     detections := [
       { box := ⟨0, 0, 10, 10⟩, descriptor := some [1, 2], age := some (152 / 5),
         gender := some "male", genderProbability := some (9 / 10) },
       { box := ⟨20, 0, 10, 10⟩, descriptor := some [3, 4], age := some 52,
         gender := some "female", genderProbability := some (4 / 5) }] }]

/-- A capture of two faces for which the age and gender pass found only one face. -/
def twoFaceCapture : CaptureInput :=
  { paused := false, ended := false,
    detections := [
      { box := ⟨0, 0, 10, 10⟩, descriptor := some [1, 2] },
      { box := ⟨20, 0, 10, 10⟩, descriptor := some [3, 4] }],
    ageGenderDetections := [{ age := 52, gender := "female", genderProbability := 4 / 5 }],
    dataUrl := "data:image/jpeg;base64,AA==", now := 5 }

/-- The gallery entry that `trainFaces` builds from the name typed and the buffered
photos. -/
def trainedFace (s : State) (now : Nat) : StoredFace :=
  makeFaceData (jsTrim s.personNameValue) (extractAll s.capturedPhotos)
    (match s.capturedPhotos.head? with
      | some photo => photo.dataUrl
      | none => "") now

/-! ## Lemmas on the platform model -/

theorem toDigitsCore_mem (b : Nat) (hb : 0 < b) :
    ∀ (fuel n : Nat) (acc : List Char) (c : Char),
      c ∈ Nat.toDigitsCore b fuel n acc → c ∈ acc ∨ ∃ d, d < b ∧ c = Nat.digitChar d := by
  intro fuel
  induction fuel with
  | zero => intro n acc c h; left; simpa [Nat.toDigitsCore] using h
  | succ fuel ih =>
    intro n acc c h
    simp only [Nat.toDigitsCore] at h
    split_ifs at h with h0
    · rcases List.mem_cons.mp h with h1 | h1
      · right; exact ⟨_, Nat.mod_lt _ hb, h1⟩
      · left; exact h1
    · rcases ih _ _ _ h with h1 | h1
      · rcases List.mem_cons.mp h1 with h2 | h2
        · right; exact ⟨_, Nat.mod_lt _ hb, h2⟩
        · left; exact h2
      · right; exact h1

/-- The decimal form of an index is never the key `length`. -/
theorem toString_nat_ne_length (i : Nat) : toString i ≠ "length" := by
  intro h
  have h1 : (Nat.toDigits 10 i) = "length".data := by
    have := congrArg String.data h
    simpa [toString, Nat.repr, List.asString] using this
  have h2 : 'l' ∈ Nat.toDigits 10 i := by rw [h1]; decide
  rcases toDigitsCore_mem 10 (by decide) _ _ _ _ h2 with h3 | ⟨d, hd, h3⟩
  · simp at h3
  · interval_cases d <;> revert h3 <;> decide

theorem getProp_length_indexProps (d : Float32Array) :
    ∀ i : Nat, getProp "length" (indexProps i d) = none := by
  induction d with
  | nil => intro i; rfl
  | cons x rest ih =>
    intro i
    simp only [indexProps, getProp]
    rw [if_neg (toString_nat_ne_length i)]
    exact ih (i + 1)

/-- A serialized `Float32Array` has no `length` property, so the constructor sees an
array-like of length 0. -/
theorem newFloat32Array_float32ArrayToJson (P : Platform) (d : Float32Array) :
    newFloat32Array P (float32ArrayToJson d) = Except.ok [] := by
  simp [float32ArrayToJson, newFloat32Array, getProp_length_indexProps]

theorem mapExcept_map_eq {α β γ : Type} (f : β → Except JSError γ) (h : α → β) (g : α → γ) :
    ∀ xs : List α, (∀ a ∈ xs, f (h a) = Except.ok (g a)) →
      mapExcept f (xs.map h) = Except.ok (xs.map g) := by
  intro xs
  induction xs with
  | nil => intro _; rfl
  | cons a rest ih =>
    intro hfg
    have ha := hfg a (List.mem_cons_self a rest)
    have hr := ih (fun b hb => hfg b (List.mem_cons_of_mem a hb))
    simp [mapExcept, ha, hr]

theorem reviveFace_faceToJson (P : Platform) (f : StoredFace) :
    reviveFace P (faceToJson f) = Except.ok (reloaded f) := by
  have h : mapExcept (newFloat32Array P) (f.descriptors.map float32ArrayToJson)
      = Except.ok (f.descriptors.map (fun _ => [])) :=
    mapExcept_map_eq _ _ _ _ (fun d _ => newFloat32Array_float32ArrayToJson P d)
  simp [reviveFace, faceToJson, getProp, h, reloaded]

theorem reviveFaces_stringifyFaces (P : Platform) (faces : List StoredFace) :
    reviveFaces P (stringifyFaces faces) = Except.ok (faces.map reloaded) := by
  simp only [stringifyFaces, reviveFaces]
  exact mapExcept_map_eq _ _ _ _ (fun f _ => reviveFace_faceToJson P f)

theorem loadStoredFaces_saveStoredFaces (P : Platform) (s : State)
    (hshow : (s.storedFaces.map reloaded).any displayThrows = false) :
    (loadStoredFaces P (saveStoredFaces s)).storedFaces = s.storedFaces.map reloaded := by
  simp only [loadStoredFaces, saveStoredFaces, truthyItem, jsonParse,
    reviveFaces_stringifyFaces, updateFaceMatcher, updateStoredFacesDisplay, hshow]
  simp only [Bool.false_eq_true, if_false, if_true]
  split_ifs <;> rfl

/-! ## C1: gallery round trip -/

/-- C1, evaluated on the gallery that holds one identity "Alice" with one 128-element
descriptor: after `saveStoredFaces` and `loadStoredFaces` the gallery still has one entry
named "Alice" with one descriptor, but that descriptor is an empty `Float32Array`, whereas
the stored one had 128 elements.  The round trip does not return the descriptor vectors. -/
theorem C1_roundtrip_empties_descriptors :
    (loadStoredFaces examplePlatform
        (saveStoredFaces (galleryState [sampleFace "Alice"]))).storedFaces.map
      (fun f => (f.name, f.descriptors)) = [(some (Json.str "Alice"), [[]])] ∧
    (galleryState [sampleFace "Alice"]).storedFaces.map (fun f => (f.name, f.descriptors))
      = [(some (Json.str "Alice"), [sampleDescriptor])] ∧
    sampleDescriptor.length = 128 := by
  refine ⟨?_, ?_, ?_⟩
  · rw [loadStoredFaces_saveStoredFaces _ _ (by
      simp [galleryState, sampleFace, makeFaceData, reloaded, displayThrows, propThrows,
        getProp, toPrimitiveThrows])]
    simp [galleryState, sampleFace, makeFaceData, reloaded, StoredFace.name, getProp]
  · simp [galleryState, sampleFace, makeFaceData, StoredFace.name, getProp]
  · simp [sampleDescriptor]

/-! ## Lemmas on enrollment -/

theorem extractDetection_descriptors (acc : Extracted) (d : Detection) :
    (extractDetection acc d).descriptors = acc.descriptors ++ d.descriptor.toList := by
  unfold extractDetection
  cases hd : d.descriptor with
  | none => simp
  | some x =>
    simp only [Option.toList]
    split_ifs <;> rfl

theorem extractPhoto_descriptors (photo : CapturedPhoto) (acc : Extracted) :
    (extractPhoto acc photo).descriptors
      = acc.descriptors ++ photo.detections.filterMap (fun d => d.descriptor) := by
  unfold extractPhoto
  generalize photo.detections = dets
  induction dets generalizing acc with
  | nil => simp
  | cons d rest ih =>
    rw [List.foldl_cons, ih, extractDetection_descriptors]
    cases hd : d.descriptor <;> simp [List.filterMap_cons, hd]

theorem foldl_extractPhoto_descriptors (photos : List CapturedPhoto) (acc : Extracted) :
    (photos.foldl extractPhoto acc).descriptors = acc.descriptors ++ photoDescriptors photos := by
  induction photos generalizing acc with
  | nil => simp [photoDescriptors]
  | cons photo rest ih =>
    rw [List.foldl_cons, ih, extractPhoto_descriptors]
    simp [photoDescriptors, List.flatMap_cons]

/-- The two loops of `trainFaces` collect exactly the descriptors of the buffer, in order. -/
theorem extractAll_descriptors (photos : List CapturedPhoto) :
    (extractAll photos).descriptors = photoDescriptors photos := by
  simp [extractAll, foldl_extractPhoto_descriptors]

theorem photoDescriptors_eq_nil (photos : List CapturedPhoto)
    (h : ∀ p ∈ photos, ∀ d ∈ p.detections, d.descriptor = none) :
    photoDescriptors photos = [] := by
  simp only [photoDescriptors, List.flatMap_eq_nil_iff, List.filterMap_eq_nil_iff]
  exact h

/-- What `trainFaces` does once the name, the buffer and the descriptors have passed its
three tests: the new entry is pushed, and then either the storage is full and nothing else
changes, or the record is written and the display throws, or everything is done. -/
theorem trainFaces_proceeds (s : State) (now : Nat)
    (hname : jsTrim s.personNameValue ≠ "")
    (hdesc : photoDescriptors s.capturedPhotos ≠ []) :
    (trainFaces s now).storedFaces = s.storedFaces ++ [trainedFace s now] ∧
    ((s.storageFull = true ∧
        (trainFaces s now).faceMatcher = s.faceMatcher ∧
        (trainFaces s now).storedItem = s.storedItem ∧
        (trainFaces s now).storageFull = s.storageFull) ∨
      (s.storageFull = false ∧
        (s.storedFaces ++ [trainedFace s now]).any displayThrows = true ∧
        (trainFaces s now).faceMatcher = s.faceMatcher ∧
        (trainFaces s now).storedItem
          = some (StoredText.json (stringifyFaces (s.storedFaces ++ [trainedFace s now]))) ∧
        (trainFaces s now).storageFull = s.storageFull) ∨
      (s.storageFull = false ∧
        (s.storedFaces ++ [trainedFace s now]).any displayThrows = false ∧
        (trainFaces s now).faceMatcher = buildMatcher (s.storedFaces ++ [trainedFace s now]) ∧
        (trainFaces s now).storedItem
          = some (StoredText.json (stringifyFaces (s.storedFaces ++ [trainedFace s now]))) ∧
        (trainFaces s now).storageFull = s.storageFull ∧
        (trainFaces s now).capturedPhotos = [])) := by
  have h2 : ¬ s.capturedPhotos.length = 0 := by
    intro h0
    apply hdesc
    simp [List.length_eq_zero.mp h0, photoDescriptors]
  have h3 : ¬ (extractAll s.capturedPhotos).descriptors.length = 0 := by
    rw [extractAll_descriptors]
    simpa [List.length_eq_zero] using hdesc
  unfold trainFaces
  simp only [showLoading, hname, h2, h3, if_false, trySaveStoredFaces]
  cases hfull : s.storageFull with
  | true =>
    simp [updateStatus, hideLoading, trainedFace]
  | false =>
    simp only [Bool.false_eq_true, if_false, updateStoredFacesDisplay, saveStoredFaces]
    cases hshow : (s.storedFaces ++ [trainedFace s now]).any displayThrows with
    | true =>
      have hshow2 := hshow
      simp only [trainedFace] at hshow2
      simp [updateStatus, hideLoading, trainedFace, hshow2]
    | false =>
      have hshow2 := hshow
      simp only [trainedFace] at hshow2
      simp only [hshow2, Bool.false_eq_true, if_false]
      refine ⟨?_, Or.inr (Or.inr ⟨trivial, trivial, ?_, ?_, ?_, ?_⟩)⟩ <;>
        (split_ifs <;>
          simp [updateStatus, hideLoading, updateFaceMatcher, trainedFace])

/-! ## C2: enrollment atomicity -/

/-- C2: when the trimmed name is empty, or the photo buffer is empty, or no detection of
any buffered photo carries a `Float32Array` descriptor, `trainFaces` reports an error and
leaves `storedFaces`, the persisted record, `faceMatcher` and `capturedPhotos` as they
were. -/
theorem C2_enrollment_atomicity (s : State) (now : Nat)
    (h : jsTrim s.personNameValue = "" ∨ s.capturedPhotos = [] ∨
      ∀ p ∈ s.capturedPhotos, ∀ d ∈ p.detections, d.descriptor = none) :
    (trainFaces s now).status.type = "error" ∧
    (trainFaces s now).storedFaces = s.storedFaces ∧
    (trainFaces s now).storedFaces.length = s.storedFaces.length ∧
    (trainFaces s now).storedItem = s.storedItem ∧
    (trainFaces s now).faceMatcher = s.faceMatcher ∧
    (trainFaces s now).capturedPhotos = s.capturedPhotos := by
  unfold trainFaces
  by_cases h1 : jsTrim s.personNameValue = ""
  · simp [h1, updateStatus]
  · by_cases h2 : s.capturedPhotos.length = 0
    · simp [h1, h2, updateStatus]
    · have h3 : (extractAll (showLoading s "Training face recognition model...").capturedPhotos).descriptors.length = 0 := by
        rw [extractAll_descriptors]
        rcases h with h | h | h
        · exact absurd h h1
        · exact absurd (by simp [h]) h2
        · simp [showLoading, photoDescriptors_eq_nil _ h]
      simp only [h1, h2, h3, if_true, if_false]
      simp [updateStatus, hideLoading, showLoading]

/-- C2 at a concrete state: the name " Bob " with a buffer whose only detection has no
descriptor, on a gallery that already holds "Alice". -/
theorem C2_enrollment_atomicity_witness :
    (trainFaces { galleryState [sampleFace "Alice"] with
        personNameValue := " Bob ", capturedPhotos := blankPhotos } 7).status.type = "error" ∧
    (trainFaces { galleryState [sampleFace "Alice"] with
        personNameValue := " Bob ", capturedPhotos := blankPhotos } 7).storedFaces.length = 1 :=
  have h := C2_enrollment_atomicity
    { galleryState [sampleFace "Alice"] with
        personNameValue := " Bob ", capturedPhotos := blankPhotos } 7
    (Or.inr (Or.inr (by decide)))
  ⟨h.1, by simpa [galleryState] using h.2.2.1⟩

/-! ## C6: enrollment collects every descriptor -/

/-- C6: when the trimmed name is not empty and the buffered photos carry at least one
descriptor, `trainFaces` appends exactly one identity at the end of `storedFaces`, the
earlier entries staying as they were and in order; the new identity bears the trimmed name
and its descriptors are the in-order concatenation, over all buffered photos and all
detections of each photo, of the detections' descriptors. -/
theorem C6_enrollment_collects_every_descriptor (s : State) (now : Nat)
    (hname : jsTrim s.personNameValue ≠ "")
    (hdesc : photoDescriptors s.capturedPhotos ≠ []) :
    ∃ face : StoredFace,
      (trainFaces s now).storedFaces = s.storedFaces ++ [face] ∧
      face.name = some (Json.str (jsTrim s.personNameValue)) ∧
      face.descriptors = photoDescriptors s.capturedPhotos := by
  refine ⟨trainedFace s now, (trainFaces_proceeds s now hname hdesc).1, ?_, ?_⟩
  · simp [trainedFace, makeFaceData, StoredFace.name, getProp]
  · simp [trainedFace, makeFaceData, extractAll_descriptors]

/-- C6 at a concrete state: the name " Bob " and a buffer of two photos, the first with two
faces; the new identity gets all three descriptors, in order. -/
theorem C6_enrollment_collects_every_descriptor_witness :
    ∃ face : StoredFace,
      (trainFaces { galleryState [sampleFace "Alice"] with
          personNameValue := " Bob ", capturedPhotos := samplePhotos } 7).storedFaces
        = [sampleFace "Alice"] ++ [face] ∧
      face.name = some (Json.str "Bob") ∧
      face.descriptors = [[1, 2], [3, 4], [5, 6]] := by
  have h := C6_enrollment_collects_every_descriptor
    { galleryState [sampleFace "Alice"] with
        personNameValue := " Bob ", capturedPhotos := samplePhotos } 7
    (by decide) (by simp [photoDescriptors, samplePhotos])
  have hn : jsTrim " Bob " = "Bob" := by decide
  simpa [galleryState, photoDescriptors, samplePhotos, hn] using h

/-! ## C8: remove with an invalid index -/

/-- C8 as stated fails: on a gallery of one identity, `removeStoredFace(5)` reports no error
(the status line is untouched and the only message shown is the success message), and
`removeStoredFace(-1)` removes the identity. -/
theorem C8_invalid_index_counterexample :
    (removeStoredFace (galleryState [sampleFace "Alice"]) 5).messages
      = [{ message := "Face removed successfully.", type := "success" }] ∧
    (removeStoredFace (galleryState [sampleFace "Alice"]) 5).status.type = "info" ∧
    (galleryState [sampleFace "Alice"]).storedFaces.length = 1 ∧
    (removeStoredFace (galleryState [sampleFace "Alice"]) (-1)).storedFaces.length = 0 := by
  refine ⟨?_, ?_, ?_, ?_⟩
  · simp [removeStoredFace, showMessage, updateFaceMatcher, saveStoredFaces, galleryState,
      initialState]
    split_ifs <;> rfl
  · simp [removeStoredFace, showMessage, updateFaceMatcher, saveStoredFaces, galleryState,
      initialState]
    split_ifs <;> rfl
  · simp [galleryState]
  · simp [removeStoredFace, showMessage, updateFaceMatcher, saveStoredFaces, galleryState,
      spliceOne]

theorem spliceOne_of_length_le {α : Type} (xs : List α) (index : Int)
    (h : (xs.length : Int) ≤ index) : spliceOne xs index = xs := by
  have h0 : ¬ index < 0 := by omega
  simp only [spliceOne, h0, if_false]
  rw [min_eq_right h]
  simp

theorem removeStoredFace_storedFaces (s : State) (index : Int) :
    (removeStoredFace s index).storedFaces = spliceOne s.storedFaces index := by
  simp only [removeStoredFace, showMessage, updateFaceMatcher, saveStoredFaces]
  split_ifs <;> rfl

/-- C8, amended: `removeStoredFace` validates nothing.  For an index that is negative or
not less than the length of the gallery it reports no error: the status line is untouched
and the success message is shown.  An index not less than the length leaves `storedFaces`
unchanged; a negative index removes the entry at position length + index (position 0 when
that is negative). -/
theorem C8_remove_invalid_index (s : State) (index : Int)
    (h : index < 0 ∨ (s.storedFaces.length : Int) ≤ index) :
    (removeStoredFace s index).status = s.status ∧
    (removeStoredFace s index).messages
      = s.messages ++ [{ message := "Face removed successfully.", type := "success" }] ∧
    (removeStoredFace s index).storedFaces
      = (if index < 0 then
          s.storedFaces.eraseIdx (Int.toNat (max ((s.storedFaces.length : Int) + index) 0))
        else s.storedFaces) := by
  refine ⟨?_, ?_, ?_⟩
  · simp only [removeStoredFace, showMessage, updateFaceMatcher, saveStoredFaces]
    split_ifs <;> rfl
  · simp only [removeStoredFace, showMessage, updateFaceMatcher, saveStoredFaces]
    split_ifs <;> rfl
  · rw [removeStoredFace_storedFaces]
    by_cases hneg : index < 0
    · simp [spliceOne, hneg]
    · rw [if_neg hneg]
      exact spliceOne_of_length_le _ _ (h.resolve_left hneg)

/-- C8 amended, at a concrete state: index 5 on a gallery of one identity. -/
theorem C8_remove_invalid_index_witness :
    (removeStoredFace (galleryState [sampleFace "Alice"]) 5).storedFaces.length = 1 ∧
    (removeStoredFace (galleryState [sampleFace "Alice"]) 5).status
      = (galleryState [sampleFace "Alice"]).status :=
  have h := C8_remove_invalid_index (galleryState [sampleFace "Alice"]) 5
    (Or.inr (by simp [galleryState]))
  ⟨by rw [h.2.2]; simp [galleryState], h.1⟩

/-! ## C10: no double timer -/

/-- C10, evaluated on an idle page with a gallery of one identity: two calls of
`startRecognition` in a row leave two active recognition timers, and the `stopRecognition`
that follows clears only the second, so the first keeps firing although `isRecognizing` is
false and `recognitionInterval` is null.  The same state is reached through the buttons:
the recognize button, disabled by the first start, is enabled again by `trainFaces`. -/
theorem C10_second_start_leaks_timer :
    recognitionTimers (startRecognition (startRecognition (galleryState [sampleFace "Alice"])))
      = [{ id := 1, callback := TimerCallback.recognizeFaces },
         { id := 2, callback := TimerCallback.recognizeFaces }] ∧
    recognitionTimers
        (stopRecognition
          (startRecognition (startRecognition (galleryState [sampleFace "Alice"]))))
      = [{ id := 1, callback := TimerCallback.recognizeFaces }] ∧
    (stopRecognition
        (startRecognition (startRecognition (galleryState [sampleFace "Alice"])))).recognitionInterval
      = none ∧
    recognitionTimers
        (clickStopRecognition (clickRecognize (clickTrain
          { capturePhoto (startWebcam (clickRecognize (galleryState [sampleFace "Alice"])) true)
              sampleCapture with personNameValue := "Bob" } 7)))
      = [{ id := 1, callback := TimerCallback.recognizeFaces }] := by
  refine ⟨?_, ?_, ?_, ?_⟩
  · simp [recognitionTimers, startRecognition, setInterval, updateStatus, galleryState,
      initialState]
  · simp [recognitionTimers, startRecognition, stopRecognition, setInterval, clearInterval,
      updateStatus, galleryState, initialState]
  · simp [startRecognition, stopRecognition, setInterval, clearInterval,
      updateStatus, galleryState, initialState]
  · have hn : jsTrim "Bob" = "Bob" := by decide
    have hd : (extractAll
        [{ id := 5, dataUrl := "data:image/jpeg;base64,AA==",
           detections := combineFrom [] 0
             [{ box := ⟨0, 0, 10, 10⟩, descriptor := some sampleDescriptor }],
           name := "" }]).descriptors = [sampleDescriptor] := by
      rw [extractAll_descriptors]
      simp [photoDescriptors, combineFrom, combineDetection]
    simp [recognitionTimers, clickStopRecognition, clickRecognize, clickTrain, trainFaces,
      capturePhoto, startWebcam, startRecognition, stopRecognition, setInterval, clearInterval,
      updateStatus, showLoading, hideLoading, updateFaceMatcher, saveStoredFaces, galleryState,
      initialState, sampleCapture, hn, hd, trySaveStoredFaces, updateStoredFacesDisplay,
      displayThrows, propThrows, toPrimitiveThrows, sampleFace, makeFaceData, getProp]

/-! ## Lemmas on the matcher -/

theorem zero_lt_pointSix : Num.lt 0 (Num.fin pointSix) = true := by
  show Num.lt (Num.fin ((0 : Nat) : ℚ)) (Num.fin pointSix) = true
  simp only [Num.lt, pointSix, decide_eq_true_eq]
  norm_num

/-- On the example platform a matcher that holds the sample descriptor under one label
answers that label, at distance 0, to the sample descriptor. -/
theorem findBestMatch_sample (label : String) :
    FaceMatcher.findBestMatch examplePlatform
      { labeledDescriptors := [{ label := label, descriptors := [sampleDescriptor] }],
        distanceThreshold := Num.fin pointSix } sampleDescriptor
      = some { label := label, distance := 0 } := by
  simp only [FaceMatcher.findBestMatch, FaceMatcher.candidates, List.flatMap_cons,
    List.flatMap_nil, List.map_cons, List.map_nil, List.append_nil, bestCandidate,
    List.foldl_nil, examplePlatform, if_true, zero_lt_pointSix]


theorem mapExcept_ok_mem {α β : Type} (f : α → Except JSError β) :
    ∀ (xs : List α) (ys : List β), mapExcept f xs = Except.ok ys →
      ∀ y ∈ ys, ∃ x ∈ xs, f x = Except.ok y := by
  intro xs
  induction xs with
  | nil =>
    intro ys h y hy
    simp only [mapExcept, Except.ok.injEq] at h
    subst h
    simp at hy
  | cons a rest ih =>
    intro ys h y hy
    simp only [mapExcept] at h
    split at h
    · exact absurd h (by simp)
    · rename_i b hb
      split at h
      · exact absurd h (by simp)
      · rename_i bs hbs
        simp only [Except.ok.injEq] at h
        subst h
        rcases List.mem_cons.mp hy with h1 | h1
        · exact ⟨a, List.mem_cons_self a rest, by rw [h1]; exact hb⟩
        · rcases ih bs hbs y h1 with ⟨x, hx, hfx⟩
          exact ⟨x, List.mem_cons_of_mem a hx, hfx⟩

theorem newLabeledFaceDescriptors_ok (face : StoredFace) (ld : LabeledFaceDescriptors)
    (h : newLabeledFaceDescriptors face = Except.ok ld) :
    face.name = some (Json.str ld.label) ∧ ld.descriptors = face.descriptors := by
  unfold newLabeledFaceDescriptors at h
  split at h
  · rename_i label hl
    simp only [Except.ok.injEq] at h
    subst h
    exact ⟨hl, rfl⟩
  · exact absurd h (by simp)

/-- Every label indexed by a matcher that was built is the name of an identity. -/
theorem buildMatcher_label_mem (faces : List StoredFace) (m : FaceMatcher)
    (h : buildMatcher faces = some m) :
    ∀ ld ∈ m.labeledDescriptors, ∃ f ∈ faces, f.name = some (Json.str ld.label) := by
  unfold buildMatcher at h
  split_ifs at h
  split at h
  · rename_i lds hlds
    simp only [Option.some.injEq] at h
    subst h
    intro ld hld
    rcases mapExcept_ok_mem _ _ _ hlds ld hld with ⟨f, hf, hfl⟩
    exact ⟨f, hf, (newLabeledFaceDescriptors_ok f ld hfl).1⟩
  · exact absurd h (by simp)

theorem foldl_best_mem (rest : List FaceMatch) :
    ∀ c : FaceMatch,
      rest.foldl (fun best curr => if Num.lt curr.distance best.distance then curr else best) c
        ∈ c :: rest := by
  induction rest with
  | nil => intro c; simp
  | cons d rest ih =>
    intro c
    rw [List.foldl_cons]
    split_ifs
    · exact List.mem_cons_of_mem c (ih d)
    · rcases List.mem_cons.mp (ih c) with h | h
      · rw [h]; exact List.mem_cons_self c _
      · exact List.mem_cons_of_mem c (List.mem_cons_of_mem d h)

theorem bestCandidate_mem (cs : List FaceMatch) (best : FaceMatch)
    (h : bestCandidate cs = some best) : best ∈ cs := by
  cases cs with
  | nil => simp [bestCandidate] at h
  | cons c rest =>
    simp only [bestCandidate, Option.some.injEq] at h
    rw [← h]
    exact foldl_best_mem rest c

/-- A match is either the label `unknown` or a label that the matcher indexes. -/
theorem findBestMatch_label (P : Platform) (m : FaceMatcher) (query : Float32Array)
    (found : FaceMatch) (h : m.findBestMatch P query = some found) :
    found.label = "unknown" ∨ ∃ ld ∈ m.labeledDescriptors, ld.label = found.label := by
  unfold FaceMatcher.findBestMatch at h
  split at h
  · exact absurd h (by simp)
  · rename_i best hbest
    split_ifs at h
    · simp only [Option.some.injEq] at h
      subst h
      right
      have hmem := bestCandidate_mem _ _ hbest
      simp only [FaceMatcher.candidates, List.mem_flatMap, List.mem_map] at hmem
      rcases hmem with ⟨ld, hld, d, _, hd⟩
      exact ⟨ld, hld, by rw [← hd]⟩
    · simp only [Option.some.injEq] at h
      subst h
      left
      rfl

theorem removeStoredFace_faceMatcher (s : State) (index : Int) :
    (removeStoredFace s index).faceMatcher = buildMatcher (spliceOne s.storedFaces index) := by
  simp only [removeStoredFace, showMessage, updateFaceMatcher, saveStoredFaces]
  split_ifs <;> rfl

theorem spliceOne_of_nat {α : Type} (xs : List α) (i : Nat) (h : i < xs.length) :
    spliceOne xs (i : Int) = xs.eraseIdx i := by
  have h0 : ¬ (i : Int) < 0 := by omega
  have h1 : min (i : Int) (xs.length : Int) = (i : Int) := min_eq_left (by omega)
  simp [spliceOne, h0, h1]

/-! ## C3: remove, then rebuild -/

/-- C3 as stated fails: in a gallery of two identities that are both named "Alice",
after `removeStoredFace(0)` the rebuilt matcher answers "Alice", at distance 0, to the
descriptor that was stored for the removed identity. -/
theorem C3_duplicate_name_counterexample :
    (galleryState [sampleFace "Alice", sampleFace "Alice"]).storedFaces.map
      (fun f => (f.name, f.descriptors))
      = [(some (Json.str "Alice"), [sampleDescriptor]),
         (some (Json.str "Alice"), [sampleDescriptor])] ∧
    ∃ m : FaceMatcher,
      (removeStoredFace (galleryState [sampleFace "Alice", sampleFace "Alice"]) 0).faceMatcher
        = some m ∧
      m.findBestMatch examplePlatform sampleDescriptor
        = some { label := "Alice", distance := 0 } := by
  refine ⟨by simp [galleryState, sampleFace, makeFaceData, StoredFace.name, getProp], ?_⟩
  refine ⟨{ labeledDescriptors := [{ label := "Alice", descriptors := [sampleDescriptor] }],
            distanceThreshold := Num.fin pointSix }, ?_, ?_⟩
  · rw [removeStoredFace_faceMatcher]
    simp [galleryState, spliceOne, buildMatcher, mapExcept, newLabeledFaceDescriptors,
      sampleFace, makeFaceData, StoredFace.name, getProp]
  · exact findBestMatch_sample "Alice"

/-- C3, amended: for every gallery and every valid index `i`, when no remaining identity
bears the name of the removed one and that name is not the label `unknown` that the matcher
gives to a face it does not recognize, then after `removeStoredFace(i)` the matcher is the
one built from the remaining identities and it never returns the removed name, whatever
the query descriptor. -/
theorem C3_remove_then_rebuild (P : Platform) (s : State) (i : Nat)
    (hi : i < s.storedFaces.length)
    (hother : ∀ f ∈ s.storedFaces.eraseIdx i, f.name ≠ (s.storedFaces.get ⟨i, hi⟩).name)
    (hunknown : (s.storedFaces.get ⟨i, hi⟩).name ≠ some (Json.str "unknown")) :
    (removeStoredFace s i).storedFaces = s.storedFaces.eraseIdx i ∧
    (removeStoredFace s i).faceMatcher = buildMatcher (s.storedFaces.eraseIdx i) ∧
    ∀ (m : FaceMatcher) (query : Float32Array) (found : FaceMatch),
      (removeStoredFace s i).faceMatcher = some m →
      m.findBestMatch P query = some found →
      some (Json.str found.label) ≠ (s.storedFaces.get ⟨i, hi⟩).name := by
  have hm : (removeStoredFace s i).faceMatcher = buildMatcher (s.storedFaces.eraseIdx i) := by
    rw [removeStoredFace_faceMatcher, spliceOne_of_nat _ _ hi]
  refine ⟨by rw [removeStoredFace_storedFaces, spliceOne_of_nat _ _ hi], hm, ?_⟩
  intro m query found hsome hfound heq
  rw [hm] at hsome
  rcases findBestMatch_label P m query found hfound with hu | ⟨ld, hld, hlabel⟩
  · apply hunknown
    rw [← heq, hu]
  · rcases buildMatcher_label_mem _ m hsome ld hld with ⟨f, hf, hname⟩
    apply hother f hf
    rw [hname, hlabel, heq]

/-- C3 amended, at a concrete gallery: "Alice" then "Bob"; after `removeStoredFace(0)` the
matcher answers "Bob" to the descriptor stored for "Alice" (the two identities of the
example share their descriptor), never "Alice". -/
theorem C3_remove_then_rebuild_witness :
    ∃ (m : FaceMatcher) (found : FaceMatch),
      (removeStoredFace (galleryState [sampleFace "Alice", sampleFace "Bob"]) 0).faceMatcher
        = some m ∧
      m.findBestMatch examplePlatform sampleDescriptor = some found ∧
      found.label = "Bob" ∧
      some (Json.str found.label) ≠ (sampleFace "Alice").name := by
  have h := C3_remove_then_rebuild examplePlatform
    (galleryState [sampleFace "Alice", sampleFace "Bob"]) 0
    (by simp [galleryState])
    (by simp [galleryState, sampleFace, makeFaceData, StoredFace.name, getProp])
    (by simp [galleryState, sampleFace, makeFaceData, StoredFace.name, getProp])
  have hm : (removeStoredFace (galleryState [sampleFace "Alice", sampleFace "Bob"]) 0).faceMatcher
      = some { labeledDescriptors := [{ label := "Bob", descriptors := [sampleDescriptor] }],
               distanceThreshold := Num.fin pointSix } := by
    rw [removeStoredFace_faceMatcher]
    simp [galleryState, spliceOne, buildMatcher, mapExcept, newLabeledFaceDescriptors,
      sampleFace, makeFaceData, StoredFace.name, getProp]
  have hf : FaceMatcher.findBestMatch examplePlatform
      { labeledDescriptors := [{ label := "Bob", descriptors := [sampleDescriptor] }],
        distanceThreshold := Num.fin pointSix } sampleDescriptor
      = some { label := "Bob", distance := 0 } := findBestMatch_sample "Bob"
  exact ⟨_, _, hm, hf, rfl, h.2.2 _ sampleDescriptor _ hm hf⟩

/-! ## Lemmas on `loadStoredFaces` -/

/-- A record that decodes, converts and can be displayed is loaded as it is. -/
theorem loadStoredFaces_of_shown (P : Platform) (s : State) (v : Json)
    (faces : List StoredFace) (hitem : s.storedItem = some (StoredText.json v))
    (hrevive : reviveFaces P v = Except.ok faces)
    (hshow : faces.any displayThrows = false) :
    (loadStoredFaces P s).storedFaces = faces ∧
    (loadStoredFaces P s).faceMatcher = buildMatcher faces ∧
    (loadStoredFaces P s).storedItem = s.storedItem ∧
    (loadStoredFaces P s).storageFull = s.storageFull := by
  simp only [loadStoredFaces, hitem, truthyItem, jsonParse, hrevive, updateFaceMatcher,
    updateStoredFacesDisplay, hshow, Bool.false_eq_true, if_false, if_true]
  split_ifs <;> exact ⟨rfl, rfl, rfl, rfl⟩

/-- A record that decodes and converts but cannot be displayed: the `catch` block empties
the gallery and removes the record, after the matcher has been built from the record. -/
theorem loadStoredFaces_of_display_throw (P : Platform) (s : State) (v : Json)
    (faces : List StoredFace) (hitem : s.storedItem = some (StoredText.json v))
    (hrevive : reviveFaces P v = Except.ok faces)
    (hshow : faces.any displayThrows = true) :
    (loadStoredFaces P s).storedFaces = [] ∧
    (loadStoredFaces P s).faceMatcher = buildMatcher faces ∧
    (loadStoredFaces P s).storedItem = none ∧
    (loadStoredFaces P s).storageFull = s.storageFull := by
  simp [loadStoredFaces, hitem, truthyItem, jsonParse, hrevive, updateFaceMatcher,
    updateStoredFacesDisplay, hshow]

/-- A record that does not decode or does not convert: the `catch` block empties the
gallery and removes the record. -/
theorem loadStoredFaces_of_fail (P : Platform) (s : State)
    (hfail : s.storedItem = some StoredText.invalid ∨
      ∃ v e, s.storedItem = some (StoredText.json v) ∧ reviveFaces P v = Except.error e) :
    (loadStoredFaces P s).storedFaces = [] ∧
    (loadStoredFaces P s).faceMatcher = s.faceMatcher ∧
    (loadStoredFaces P s).storedItem = none ∧
    (loadStoredFaces P s).storageFull = s.storageFull := by
  rcases hfail with h | ⟨v, e, h, hv⟩
  · simp [loadStoredFaces, h, truthyItem, jsonParse]
  · simp [loadStoredFaces, h, truthyItem, jsonParse, hv]

theorem loadStoredFaces_of_absent (P : Platform) (s : State)
    (h : s.storedItem = none ∨ s.storedItem = some StoredText.empty) :
    loadStoredFaces P s = s := by
  rcases h with h | h <;> simp [loadStoredFaces, h, truthyItem]

/-- The record with an `imageSrc` that cannot be rendered decodes and converts. -/
theorem reviveFaces_unrenderableRecord :
    reviveFaces examplePlatform
      (Json.arr [Json.obj [
        ("name", Json.str "Alice"),
        ("descriptors", Json.arr [Json.arr [Json.num 1, Json.num 2, Json.num 3]]),
        ("imageSrc", Json.obj [("toString", Json.num 0)])]])
      = Except.ok [(⟨[("name", Json.str "Alice"),
          ("imageSrc", Json.obj [("toString", Json.num 0)])], [[1, 2, 3]]⟩ : StoredFace)] := by
  simp [reviveFaces, reviveFace, mapExcept, newFloat32Array, getProp,
    anyPrimitiveThrows, toPrimitiveThrows, examplePlatform]
  refine ⟨?_, ?_, ?_⟩ <;> (show Num.fin _ = Num.fin _) <;> norm_num

/-! ## C4: corrupt persisted data -/

/-- C4 as stated fails: a persisted record that decodes to a gallery with a descriptor
array of length 3 is loaded as it is; `storedFaces` then holds one identity, whose
descriptor has 3 elements, and a matcher is built from it. -/
theorem C4_wrong_length_counterexample :
    (loadStoredFaces examplePlatform (initialState (some shortDescriptorRecord))).storedFaces.map
      (fun f => (f.name, f.descriptors)) = [(some (Json.str "Alice"), [[1, 2, 3]])] ∧
    (loadStoredFaces examplePlatform (initialState (some shortDescriptorRecord))).storedFaces
      ≠ [] := by
  have hrevive : reviveFaces examplePlatform
      (Json.arr [Json.obj [
        ("name", Json.str "Alice"),
        ("descriptors", Json.arr [Json.arr [Json.num 1, Json.num 2, Json.num 3]]),
        ("imageSrc", Json.str "data:image/jpeg;base64,AA=="),
        ("age", Json.str ""), ("gender", Json.str ""), ("timestamp", Json.num 0)]])
      = Except.ok [(⟨[("name", Json.str "Alice"),
          ("imageSrc", Json.str "data:image/jpeg;base64,AA=="),
          ("age", Json.str ""), ("gender", Json.str ""), ("timestamp", Json.num 0)],
          [[1, 2, 3]]⟩ : StoredFace)] := by
    simp [reviveFaces, reviveFace, mapExcept, newFloat32Array, getProp, examplePlatform,
      anyPrimitiveThrows, toPrimitiveThrows]
    refine ⟨?_, ?_, ?_⟩ <;> (show Num.fin _ = Num.fin _) <;> norm_num
  have hload := loadStoredFaces_of_shown examplePlatform
    (initialState (some shortDescriptorRecord)) _ _ rfl hrevive
    (by simp [displayThrows, propThrows, getProp, toPrimitiveThrows])
  have h : (loadStoredFaces examplePlatform
      (initialState (some shortDescriptorRecord))).storedFaces.map
      (fun f => (f.name, f.descriptors)) = [(some (Json.str "Alice"), [[1, 2, 3]])] := by
    rw [hload.1]
    simp [StoredFace.name, getProp]
  refine ⟨h, ?_⟩
  intro hnil
  rw [hnil] at h
  simp at h

/-- C4, amended: `loadStoredFaces` never throws (it is a total function of the state) and
it resets the gallery exactly when a call of its `try` block throws.  For a non-empty text
that is not valid JSON, for a text that decodes to a value whose conversion throws (the
value is not an array, an entry is not an object with an array `descriptors`, an element
cannot be converted to a number, a typed array cannot be allocated), and for a text that
decodes and converts to entries that `updateStoredFacesDisplay` cannot render, it leaves
`storedFaces` empty and removes the record.  A text that decodes, converts and can be
rendered is loaded as it is, whatever the length of its descriptor arrays.  With no
record, or the empty string, `storedFaces` keeps its value, which is the empty list at
start-up. -/
theorem C4_corrupt_persisted_data (P : Platform) (s : State) :
    (s.storedItem = some StoredText.invalid →
      (loadStoredFaces P s).storedFaces = [] ∧ (loadStoredFaces P s).storedItem = none) ∧
    (∀ (v : Json) (e : JSError), s.storedItem = some (StoredText.json v) →
      reviveFaces P v = Except.error e →
      (loadStoredFaces P s).storedFaces = [] ∧ (loadStoredFaces P s).storedItem = none) ∧
    (∀ (v : Json) (faces : List StoredFace), s.storedItem = some (StoredText.json v) →
      reviveFaces P v = Except.ok faces → faces.any displayThrows = true →
      (loadStoredFaces P s).storedFaces = [] ∧ (loadStoredFaces P s).storedItem = none) ∧
    (∀ (v : Json) (faces : List StoredFace), s.storedItem = some (StoredText.json v) →
      reviveFaces P v = Except.ok faces → faces.any displayThrows = false →
      (loadStoredFaces P s).storedFaces = faces ∧
      (loadStoredFaces P s).storedItem = s.storedItem) ∧
    (s.storedItem = none ∨ s.storedItem = some StoredText.empty →
      (loadStoredFaces P s).storedFaces = s.storedFaces) ∧
    (∀ v : Json, (∀ items : List Json, v ≠ Json.arr items) →
      reviveFaces P v = Except.error JSError.typeError) ∧
    (∀ items : List Json, anyPrimitiveThrows items = true →
      newFloat32Array P (Json.arr items) = Except.error JSError.typeError) := by
  refine ⟨?_, ?_, ?_, ?_, ?_, ?_, ?_⟩
  · intro h
    have := loadStoredFaces_of_fail P s (Or.inl h)
    exact ⟨this.1, this.2.2.1⟩
  · intro v e h hv
    have := loadStoredFaces_of_fail P s (Or.inr ⟨v, e, h, hv⟩)
    exact ⟨this.1, this.2.2.1⟩
  · intro v faces h hv hshow
    have := loadStoredFaces_of_display_throw P s v faces h hv hshow
    exact ⟨this.1, this.2.2.1⟩
  · intro v faces h hv hshow
    have := loadStoredFaces_of_shown P s v faces h hv hshow
    exact ⟨this.1, this.2.2.1⟩
  · intro h
    rw [loadStoredFaces_of_absent P s h]
  · intro v hv
    cases v with
    | arr items => exact absurd rfl (hv items)
    | _ => rfl
  · intro items h
    simp [newFloat32Array, h]

/-- C4 amended, at concrete records: on a page that holds a gallery, a text that is not
valid JSON and the JSON text `5` both leave `storedFaces` empty; and on a freshly loaded
page the record of "Alice" whose `imageSrc` is an object with an own property `toString`,
which decodes and converts but cannot be rendered, leaves `storedFaces` empty and is
removed. -/
theorem C4_corrupt_persisted_data_witness :
    (loadStoredFaces examplePlatform
      { galleryState [sampleFace "Alice"] with
          storedItem := some StoredText.invalid }).storedFaces = [] ∧
    (loadStoredFaces examplePlatform
      { galleryState [sampleFace "Alice"] with
          storedItem := some (StoredText.json (Json.num 5)) }).storedFaces = [] ∧
    (loadStoredFaces examplePlatform (initialState (some unrenderableRecord))).storedFaces
      = [] ∧
    (loadStoredFaces examplePlatform (initialState (some unrenderableRecord))).storedItem
      = none :=
  ⟨((C4_corrupt_persisted_data examplePlatform
      { galleryState [sampleFace "Alice"] with storedItem := some StoredText.invalid }).1
      rfl).1,
   ((C4_corrupt_persisted_data examplePlatform
      { galleryState [sampleFace "Alice"] with
          storedItem := some (StoredText.json (Json.num 5)) }).2.1
      (Json.num 5) JSError.typeError rfl rfl).1,
   ((C4_corrupt_persisted_data examplePlatform
      (initialState (some unrenderableRecord))).2.2.1 _ _ rfl reviveFaces_unrenderableRecord
      (by simp [displayThrows, getProp, propThrows, toPrimitiveThrows])).1,
   ((C4_corrupt_persisted_data examplePlatform
      (initialState (some unrenderableRecord))).2.2.1 _ _ rfl reviveFaces_unrenderableRecord
      (by simp [displayThrows, getProp, propThrows, toPrimitiveThrows])).2⟩

/-! ## How one event changes gallery, matcher and persisted record -/

theorem getProp_filter_descriptors (key : String) (hkey : key ≠ "descriptors") :
    ∀ props : List (String × Json),
      getProp key (props.filter (fun kv => kv.1 ≠ "descriptors")) = getProp key props := by
  intro props
  induction props with
  | nil => rfl
  | cons kv rest ih =>
    rcases kv with ⟨k, v⟩
    by_cases hk : k = "descriptors"
    · have hne : ¬ k = key := fun h => hkey (h ▸ hk)
      rw [List.filter_cons_of_neg (by simpa using hk), ih]
      simp [getProp, hne]
    · rw [List.filter_cons_of_pos (by simpa using hk)]
      simp only [getProp, ih]

/-- Saving and loading an entry does not change whether it can be rendered. -/
theorem displayThrows_reloaded (f : StoredFace) :
    displayThrows (reloaded f) = displayThrows f := by
  simp only [displayThrows, reloaded]
  rw [getProp_filter_descriptors "imageSrc" (by decide),
    getProp_filter_descriptors "name" (by decide),
    getProp_filter_descriptors "age" (by decide),
    getProp_filter_descriptors "gender" (by decide),
    getProp_filter_descriptors "timestamp" (by decide)]

theorem any_displayThrows_reloaded (faces : List StoredFace) :
    (faces.map reloaded).any displayThrows = faces.any displayThrows := by
  induction faces with
  | nil => rfl
  | cons f rest ih => simp only [List.map, List.any, displayThrows_reloaded, ih]

/-- The entry that `trainFaces` builds can always be rendered. -/
theorem displayThrows_trainedFace (s : State) (now : Nat) :
    displayThrows (trainedFace s now) = false := by
  simp [displayThrows, trainedFace, makeFaceData, getProp, propThrows, toPrimitiveThrows]

theorem trainedFace_descriptors (s : State) (now : Nat) :
    (trainedFace s now).descriptors = photoDescriptors s.capturedPhotos := by
  simp [trainedFace, makeFaceData, extractAll_descriptors]

theorem loadStoredFaces_galleryStep (P : Platform) (s : State) :
    GalleryStep P s (loadStoredFaces P s) := by
  unfold GalleryStep
  cases hitem : s.storedItem with
  | none =>
    rw [loadStoredFaces_of_absent P s (Or.inl hitem)]
    exact ⟨rfl, Or.inl ⟨rfl, rfl, hitem⟩⟩
  | some text =>
    cases text with
    | empty =>
      rw [loadStoredFaces_of_absent P s (Or.inr hitem)]
      exact ⟨rfl, Or.inl ⟨rfl, rfl, hitem⟩⟩
    | invalid =>
      have h := loadStoredFaces_of_fail P s (Or.inl hitem)
      exact ⟨h.2.2.2, Or.inr (Or.inl ⟨Or.inl rfl, h.1, h.2.1, h.2.2.1⟩)⟩
    | json v =>
      cases hv : reviveFaces P v with
      | error e =>
        have h := loadStoredFaces_of_fail P s (Or.inr ⟨v, e, hitem, hv⟩)
        exact ⟨h.2.2.2, Or.inr (Or.inl ⟨Or.inr ⟨v, e, rfl, hv⟩, h.1, h.2.1, h.2.2.1⟩)⟩
      | ok faces =>
        cases hshow : faces.any displayThrows with
        | true =>
          have h := loadStoredFaces_of_display_throw P s v faces hitem hv hshow
          exact ⟨h.2.2.2, Or.inr (Or.inr (Or.inl
            ⟨v, faces, rfl, hv, hshow, h.1, h.2.1, h.2.2.1⟩))⟩
        | false =>
          have h := loadStoredFaces_of_shown P s v faces hitem hv hshow
          exact ⟨h.2.2.2, Or.inr (Or.inr (Or.inr (Or.inl
            ⟨v, faces, rfl, hv, hshow, h.1, h.2.1, h.2.2.1.trans hitem⟩)))⟩

theorem trainFaces_galleryStep (P : Platform) (s : State) (now : Nat) :
    GalleryStep P s (trainFaces s now) := by
  unfold GalleryStep
  by_cases h1 : jsTrim s.personNameValue = ""
  · refine ⟨?_, Or.inl ⟨?_, ?_, ?_⟩⟩ <;> simp [trainFaces, h1, updateStatus]
  · by_cases h2 : s.capturedPhotos.length = 0
    · refine ⟨?_, Or.inl ⟨?_, ?_, ?_⟩⟩ <;> simp [trainFaces, h1, h2, updateStatus]
    · by_cases h3 : photoDescriptors s.capturedPhotos = []
      · have h3a : (extractAll (showLoading s
            "Training face recognition model...").capturedPhotos).descriptors.length = 0 := by
          simp only [showLoading]
          rw [extractAll_descriptors, h3]
          rfl
        constructor
        · simp only [trainFaces, h1, h2, h3a, if_true, if_false]
          simp [updateStatus, hideLoading, showLoading]
        · left
          simp only [trainFaces, h1, h2, h3a, if_true, if_false]
          simp [updateStatus, hideLoading, showLoading]
      · have hface : (trainedFace s now).descriptors ≠ [] := by
          rw [trainedFace_descriptors]
          exact h3
        have hshow := displayThrows_trainedFace s now
        rcases trainFaces_proceeds s now h1 h3 with
          ⟨hpush, ⟨hfull, hm, hi, hs⟩ | ⟨hroom, hthrow, hm, hi, hs⟩ |
            ⟨hroom, hsafe, hm, hi, hs, _⟩⟩
        · exact ⟨hs, Or.inr (Or.inr (Or.inr (Or.inr (Or.inr (Or.inr (Or.inl
            ⟨trainedFace s now, hface, Or.inl hfull, hpush, hm, Or.inl hi⟩))))))⟩
        · have hold : s.storedFaces.any displayThrows = true := by
            rw [List.any_append] at hthrow
            simpa [hshow] using hthrow
          exact ⟨hs, Or.inr (Or.inr (Or.inr (Or.inr (Or.inr (Or.inr (Or.inl
            ⟨trainedFace s now, hface, Or.inr hold, hpush, hm, Or.inr hi⟩))))))⟩
        · have hold : s.storedFaces.any displayThrows = false := by
            rw [List.any_append] at hsafe
            simpa [hshow] using hsafe
          exact ⟨hs, Or.inr (Or.inr (Or.inr (Or.inr (Or.inr (Or.inl
            ⟨trainedFace s now, hface, hshow, hroom, hold, hpush, hm, hi⟩)))))⟩

theorem removeStoredFace_galleryStep (P : Platform) (s : State) (index : Int) :
    GalleryStep P s (removeStoredFace s index) := by
  unfold GalleryStep
  refine ⟨?_, Or.inr (Or.inr (Or.inr (Or.inr (Or.inl ⟨index, ?_, ?_, ?_⟩))))⟩ <;>
  · simp only [removeStoredFace, showMessage, updateFaceMatcher, saveStoredFaces]
    split_ifs <;> rfl

theorem clearAllData_galleryStep (P : Platform) (s : State) (confirmed : Bool) :
    GalleryStep P s (clearAllData s confirmed) := by
  unfold GalleryStep
  cases confirmed with
  | false => exact ⟨by simp [clearAllData], Or.inl (by simp [clearAllData])⟩
  | true =>
    exact ⟨by simp [clearAllData, showMessage],
      Or.inr (Or.inr (Or.inr (Or.inr (Or.inr (Or.inr (Or.inr
        (by simp [clearAllData, showMessage])))))))⟩

theorem sameGallery_galleryStep (P : Platform) (s t : State) (h : SameGallery s t) :
    GalleryStep P s t :=
  ⟨h.2.2.2, Or.inl ⟨h.1, h.2.1, h.2.2.1⟩⟩

theorem SameGallery.trans {s t u : State} (h1 : SameGallery s t) (h2 : SameGallery t u) :
    SameGallery s u :=
  ⟨h2.1.trans h1.1, h2.2.1.trans h1.2.1, h2.2.2.1.trans h1.2.2.1, h2.2.2.2.trans h1.2.2.2⟩

theorem stopRecognition_gallery (s : State) : SameGallery s (stopRecognition s) := by
  simp only [SameGallery, stopRecognition, updateStatus, clearInterval]
  refine ⟨?_, ?_, ?_, ?_⟩ <;> (split <;> [split_ifs; skip]) <;> rfl

theorem toggleDetection_gallery (s : State) : SameGallery s (toggleDetection s) := by
  simp only [SameGallery, toggleDetection, updateStatus, clearInterval, setInterval]
  refine ⟨?_, ?_, ?_, ?_⟩ <;> split_ifs <;>
    first | rfl | (split <;> [split_ifs; skip]) <;> rfl

theorem stopWebcam_gallery (s : State) : SameGallery s (stopWebcam s) := by
  have h0 : SameGallery s { s with stream := false } := ⟨rfl, rfl, rfl, rfl⟩
  have h1 : SameGallery s
      (if ({ s with stream := false } : State).isDetecting
        then toggleDetection { s with stream := false } else { s with stream := false }) := by
    split_ifs
    · exact h0.trans (toggleDetection_gallery _)
    · exact h0
  have h2 : SameGallery s
      (if (if ({ s with stream := false } : State).isDetecting
            then toggleDetection { s with stream := false }
            else { s with stream := false }).isRecognizing
        then stopRecognition (if ({ s with stream := false } : State).isDetecting
            then toggleDetection { s with stream := false } else { s with stream := false })
        else (if ({ s with stream := false } : State).isDetecting
            then toggleDetection { s with stream := false }
            else { s with stream := false })) := by
    split_ifs with ha hb hb
    · rw [if_pos ha] at h1; exact h1.trans (stopRecognition_gallery _)
    · rw [if_pos ha] at h1; exact h1
    · rw [if_neg ha] at h1; exact h1.trans (stopRecognition_gallery _)
    · exact h0
  simp only [stopWebcam, updateStatus]
  exact ⟨h2.1, h2.2.1, h2.2.2.1, h2.2.2.2⟩

theorem recognizeFaces_gallery (P : Platform) (s : State) (input : TickInput) :
    SameGallery s (recognizeFaces P s input) := by
  unfold SameGallery recognizeFaces
  by_cases h1 : (!s.isRecognizing || input.paused || input.ended) = true
  · rw [if_pos h1]; exact ⟨rfl, rfl, rfl, rfl⟩
  · rw [if_neg h1]
    by_cases h2 : (!input.faceApiLoaded) = true
    · rw [if_pos h2]; exact ⟨rfl, rfl, rfl, rfl⟩
    · rw [if_neg h2]
      split
      · exact ⟨rfl, rfl, rfl, rfl⟩
      · dsimp only
        split
        · exact ⟨rfl, rfl, rfl, rfl⟩
        · simp only [updateRecognitionResultsDisplay]
          split_ifs <;> exact ⟨rfl, rfl, rfl, rfl⟩

/-- Every event of the script changes gallery, matcher and persisted record in one of the
ways listed in `GalleryStep`, and leaves the room in the storage as it is. -/
theorem step_galleryStep (P : Platform) (s : State) (a : Action)
    (ha : ∀ full, a ≠ Action.setStorageFull full) :
    GalleryStep P s (step P s a) := by
  cases a with
  | loadStoredFaces => exact loadStoredFaces_galleryStep P s
  | trainFaces now => exact trainFaces_galleryStep P s now
  | removeStoredFace index => exact removeStoredFace_galleryStep P s index
  | clearAllData confirmed => exact clearAllData_galleryStep P s confirmed
  | startWebcam granted =>
    apply sameGallery_galleryStep
    simp only [SameGallery, step, startWebcam, updateStatus]
    split_ifs <;> exact ⟨rfl, rfl, rfl, rfl⟩
  | stopWebcam => exact sameGallery_galleryStep P _ _ (stopWebcam_gallery s)
  | toggleDetection => exact sameGallery_galleryStep P _ _ (toggleDetection_gallery s)
  | capturePhoto input =>
    apply sameGallery_galleryStep
    simp only [SameGallery, step, capturePhoto, updateStatus]
    split_ifs <;> exact ⟨rfl, rfl, rfl, rfl⟩
  | removeCapturedPhoto index =>
    apply sameGallery_galleryStep
    simp only [SameGallery, step, removeCapturedPhoto]
    split_ifs <;> exact ⟨rfl, rfl, rfl, rfl⟩
  | typeName value => exact sameGallery_galleryStep P _ _ ⟨rfl, rfl, rfl, rfl⟩
  | startRecognition =>
    apply sameGallery_galleryStep
    simp only [SameGallery, step, startRecognition, updateStatus, setInterval]
    split_ifs <;> exact ⟨rfl, rfl, rfl, rfl⟩
  | stopRecognition => exact sameGallery_galleryStep P _ _ (stopRecognition_gallery s)
  | recognizeFaces input => exact sameGallery_galleryStep P _ _ (recognizeFaces_gallery P s input)
  | setStorageFull full => exact absurd rfl (ha full)

/-- An invariant that holds at the start and is kept by every event holds after every run. -/
theorem run_invariant (P : Platform) (Inv : State → Prop)
    (hstep : ∀ s a, Inv s → Inv (step P s a)) :
    ∀ (actions : List Action) (s : State), Inv s → Inv (run P s actions) := by
  intro actions
  induction actions with
  | nil => intro s h; exact h
  | cons a rest ih =>
    intro s h
    exact ih (step P s a) (hstep s a h)

/-- An invariant that holds at the start and is kept by every event of a given kind holds
after every run made of events of that kind. -/
theorem run_invariant_of (P : Platform) (Inv : State → Prop) (Allowed : Action → Prop)
    (hstep : ∀ s a, Allowed a → Inv s → Inv (step P s a)) :
    ∀ (actions : List Action) (s : State), (∀ a ∈ actions, Allowed a) → Inv s →
      Inv (run P s actions) := by
  intro actions
  induction actions with
  | nil => intro s _ h; exact h
  | cons a rest ih =>
    intro s hall h
    exact ih (step P s a) (fun b hb => hall b (List.mem_cons_of_mem a hb))
      (hstep s a (hall a (List.mem_cons_self a rest)) h)

/-! ## C5: gallery and matcher stay consistent -/

theorem mapExcept_ok_all {α β : Type} (f : α → Except JSError β) :
    ∀ (xs : List α) (ys : List β), mapExcept f xs = Except.ok ys →
      ∀ x ∈ xs, ∃ y, f x = Except.ok y := by
  intro xs
  induction xs with
  | nil => intro ys _ x hx; simp at hx
  | cons a rest ih =>
    intro ys h x hx
    simp only [mapExcept] at h
    split at h
    · exact absurd h (by simp)
    · rename_i b hb
      split at h
      · exact absurd h (by simp)
      · rename_i bs hbs
        rcases List.mem_cons.mp hx with h1 | h1
        · exact ⟨b, by rw [h1]; exact hb⟩
        · exact ih bs hbs x h1

theorem buildMatcher_nil : buildMatcher [] = none := by
  simp [buildMatcher]

/-- The matcher is `null` as soon as one identity has a `name` that is not a string. -/
theorem buildMatcher_of_bad_name (faces : List StoredFace)
    (h : ∃ f ∈ faces, ∀ label, f.name ≠ some (Json.str label)) :
    buildMatcher faces = none := by
  rcases h with ⟨f, hf, hname⟩
  unfold buildMatcher
  split_ifs
  · rfl
  · split
    · rename_i lds hlds
      rcases mapExcept_ok_all _ _ _ hlds f hf with ⟨ld, hld⟩
      exact absurd (newLabeledFaceDescriptors_ok f ld hld).1 (hname ld.label)
    · rfl

theorem mapExcept_labeled (faces : List StoredFace)
    (h : ∀ f ∈ faces, ∃ label, f.name = some (Json.str label)) :
    ∃ lds, mapExcept newLabeledFaceDescriptors faces = Except.ok lds ∧
      lds.map (fun ld => (some (Json.str ld.label), ld.descriptors))
        = faces.map (fun f => (f.name, f.descriptors)) := by
  induction faces with
  | nil => exact ⟨[], rfl, rfl⟩
  | cons f rest ih =>
    rcases ih (fun g hg => h g (List.mem_cons_of_mem f hg)) with ⟨lds, hlds, hmap⟩
    rcases h f (List.mem_cons_self f rest) with ⟨label, hlabel⟩
    refine ⟨{ label := label, descriptors := f.descriptors } :: lds, ?_, ?_⟩
    · simp [mapExcept, newLabeledFaceDescriptors, hlabel, hlds]
    · simp [hmap, hlabel]

/-- For a non-empty gallery whose names are all strings, the matcher indexes every
descriptor of every identity under that identity's name, and nothing else. -/
theorem buildMatcher_of_names (faces : List StoredFace) (hne : faces ≠ [])
    (h : ∀ f ∈ faces, ∃ label, f.name = some (Json.str label)) :
    ∃ m, buildMatcher faces = some m ∧ m.distanceThreshold = Num.fin pointSix ∧
      m.labeledDescriptors.map (fun ld => (some (Json.str ld.label), ld.descriptors))
        = faces.map (fun f => (f.name, f.descriptors)) := by
  rcases mapExcept_labeled faces h with ⟨lds, hlds, hmap⟩
  refine ⟨{ labeledDescriptors := lds, distanceThreshold := Num.fin pointSix }, ?_, rfl, hmap⟩
  have hlen : ¬ faces.length = 0 := by
    intro h0
    exact hne (List.length_eq_zero.mp h0)
  simp [buildMatcher, hlen, hlds]

theorem displaySafe_stringifyFaces (P : Platform) (faces : List StoredFace)
    (h : faces.any displayThrows = false) :
    DisplaySafe P (some (StoredText.json (stringifyFaces faces))) := by
  intro v loaded hv hr
  simp only [Option.some.injEq, StoredText.json.injEq] at hv
  rw [← hv, reviveFaces_stringifyFaces] at hr
  simp only [Except.ok.injEq] at hr
  rw [← hr, any_displayThrows_reloaded]
  exact h

theorem not_loadFails_stringifyFaces (P : Platform) (faces : List StoredFace) :
    ¬ LoadFails P (some (StoredText.json (stringifyFaces faces))) := by
  intro hbad
  rcases hbad with hbad | ⟨w, e, hw, he⟩
  · simp at hbad
  · simp only [Option.some.injEq, StoredText.json.injEq] at hw
    rw [← hw, reviveFaces_stringifyFaces] at he
    simp at he

theorem any_displayThrows_spliceOne (faces : List StoredFace) (index : Int)
    (h : faces.any displayThrows = false) :
    (spliceOne faces index).any displayThrows = false := by
  rw [List.any_eq_false] at h ⊢
  intro f hf
  exact h f (List.mem_of_mem_eraseIdx hf)

theorem matcherInv_step (P : Platform) (s : State) (a : Action)
    (ha : a ≠ Action.setStorageFull true) (h : MatcherInv P s) :
    MatcherInv P (step P s a) := by
  rcases h with ⟨hroom, hm, hshow, hsafe, hfail⟩
  by_cases hset : ∃ full, a = Action.setStorageFull full
  · rcases hset with ⟨full, rfl⟩
    cases full with
    | true => exact absurd rfl ha
    | false => exact ⟨rfl, hm, hshow, hsafe, hfail⟩
  · have hstep := step_galleryStep P s a (fun full h => hset ⟨full, h⟩)
    rcases hstep with ⟨hfull, hcase⟩
    rw [hroom] at hfull
    rcases hcase with
      ⟨h1, h2, h3⟩ | ⟨hf, h1, h2, h3⟩ | ⟨v, faces, hv, hr, hthrow, h1, h2, h3⟩ |
      ⟨v, faces, hv, hr, hok, h1, h2, h3⟩ | ⟨index, h1, h2, h3⟩ |
      ⟨face, _, hface, _, _, h1, h2, h3⟩ | ⟨face, _, hbad, _⟩ | ⟨h1, h2, h3⟩
    · exact ⟨hfull, by rw [h1, h2, hm], by rw [h1]; exact hshow, by rw [h3]; exact hsafe,
        by rw [h2, h3]; exact hfail⟩
    · have hnone : s.faceMatcher = none := hfail hf
      refine ⟨hfull, by rw [h1, h2, hnone, buildMatcher_nil], by rw [h1]; rfl, ?_, ?_⟩
      · rw [h3]
        intro w loaded hw
        simp at hw
      · intro _
        rw [h2, hnone]
    · rw [hsafe v faces hv hr] at hthrow
      exact absurd hthrow (by simp)
    · refine ⟨hfull, by rw [h1, h2], by rw [h1]; exact hok, by rw [h3]; exact hsafe, ?_⟩
      intro hbad
      rw [h3, hv] at hbad
      rcases hbad with hbad | ⟨w, e, hw, he⟩
      · simp at hbad
      · simp only [Option.some.injEq, StoredText.json.injEq] at hw
        rw [← hw, hr] at he
        simp at he
    · have hkeep := any_displayThrows_spliceOne s.storedFaces index hshow
      refine ⟨hfull, by rw [h1, h2], by rw [h1]; exact hkeep, ?_, ?_⟩
      · rw [h3]
        exact displaySafe_stringifyFaces P _ hkeep
      · intro hbad
        rw [h3] at hbad
        exact absurd hbad (not_loadFails_stringifyFaces P _)
    · have hkeep : (s.storedFaces ++ [face]).any displayThrows = false := by
        rw [List.any_append, hshow]
        simp [hface]
      refine ⟨hfull, by rw [h1, h2], by rw [h1]; exact hkeep, ?_, ?_⟩
      · rw [h3]
        exact displaySafe_stringifyFaces P _ hkeep
      · intro hbad
        rw [h3] at hbad
        exact absurd hbad (not_loadFails_stringifyFaces P _)
    · rcases hbad with hbad | hbad
      · rw [hroom] at hbad
        exact absurd hbad (by simp)
      · rw [hshow] at hbad
        exact absurd hbad (by simp)
    · refine ⟨hfull, by rw [h1, h2, buildMatcher_nil], by rw [h1]; rfl, ?_, ?_⟩
      · rw [h3]
        intro w loaded hw
        simp at hw
      · intro _
        exact h2

theorem reviveFaces_namelessRecord :
    reviveFaces examplePlatform
      (Json.arr [Json.obj [
        ("descriptors", Json.arr [Json.arr [Json.num 1, Json.num 2, Json.num 3]]),
        ("imageSrc", Json.str "data:image/jpeg;base64,AA==")]])
      = Except.ok [(⟨[("imageSrc", Json.str "data:image/jpeg;base64,AA==")],
          [[1, 2, 3]]⟩ : StoredFace)] := by
  simp [reviveFaces, reviveFace, mapExcept, newFloat32Array, getProp,
    anyPrimitiveThrows, toPrimitiveThrows, examplePlatform]
  refine ⟨?_, ?_, ?_⟩ <;> (show Num.fin _ = Num.fin _) <;> norm_num

theorem displaySafe_namelessRecord :
    DisplaySafe examplePlatform (some namelessRecord) := by
  intro v faces hv hr
  simp only [namelessRecord, Option.some.injEq, StoredText.json.injEq] at hv
  rw [← hv, reviveFaces_namelessRecord] at hr
  simp only [Except.ok.injEq] at hr
  rw [← hr]
  simp [displayThrows, getProp, propThrows, toPrimitiveThrows]

/-- C5 as stated fails: from a freshly loaded page whose persisted record holds one
identity without a `name`, `loadStoredFaces` reaches a state in which `storedFaces` holds
that identity, with its descriptor, and `faceMatcher` is `null`. -/
theorem C5_nameless_identity_counterexample :
    (initialState (some namelessRecord)).IsInitial ∧
    ReachableFrom examplePlatform (initialState (some namelessRecord))
      (loadStoredFaces examplePlatform (initialState (some namelessRecord))) ∧
    (loadStoredFaces examplePlatform (initialState (some namelessRecord))).storedFaces.map
      (fun f => (f.name, f.descriptors)) = [(none, [[1, 2, 3]])] ∧
    (loadStoredFaces examplePlatform (initialState (some namelessRecord))).faceMatcher
      = none := by
  have h := loadStoredFaces_of_shown examplePlatform (initialState (some namelessRecord)) _ _
    rfl reviveFaces_namelessRecord
    (by simp [displayThrows, getProp, propThrows, toPrimitiveThrows])
  refine ⟨?_, ⟨[Action.loadStoredFaces], rfl⟩, ?_, ?_⟩
  · simp [State.IsInitial, initialState]
  · rw [h.1]
    simp [StoredFace.name, getProp]
  · rw [h.2.1]
    simp [buildMatcher, mapExcept, newLabeledFaceDescriptors, StoredFace.name, getProp]

/-- C5, amended: take a freshly loaded page whose storage has room and whose persisted
record, whatever it is, loads only to entries that the gallery display can render, and a
run in which the storage never becomes full.  In the state it ends in, `faceMatcher` is
the value that `updateFaceMatcher` computes from the current `storedFaces`.  It is `null`
when `storedFaces` is empty and when some identity, loaded from the persisted record, has a
`name` that is not a string; otherwise it indexes every descriptor of every current
identity under that identity's name and nothing else, with the threshold 0.6. -/
theorem C5_matcher_consistency (P : Platform) (s0 s : State) (actions : List Action)
    (h0 : s0.IsInitial) (hroom : s0.storageFull = false)
    (hsafe : DisplaySafe P s0.storedItem)
    (hnever : ∀ a ∈ actions, a ≠ Action.setStorageFull true)
    (hrun : run P s0 actions = s) :
    s.faceMatcher = buildMatcher s.storedFaces ∧
    (s.storedFaces = [] → s.faceMatcher = none) ∧
    ((∃ f ∈ s.storedFaces, ∀ label, f.name ≠ some (Json.str label)) →
      s.faceMatcher = none) ∧
    (s.storedFaces ≠ [] → (∀ f ∈ s.storedFaces, ∃ label, f.name = some (Json.str label)) →
      ∃ m, s.faceMatcher = some m ∧ m.distanceThreshold = Num.fin pointSix ∧
        m.labeledDescriptors.map (fun ld => (some (Json.str ld.label), ld.descriptors))
          = s.storedFaces.map (fun f => (f.name, f.descriptors))) := by
  have hinit : MatcherInv P s0 := by
    rcases h0 with ⟨_, _, _, _, _, hm, hf, _, _⟩
    exact ⟨hroom, by rw [hm, hf, buildMatcher_nil], by rw [hf]; rfl, hsafe, fun _ => hm⟩
  have hinv : MatcherInv P s := by
    rw [← hrun]
    exact run_invariant_of P (MatcherInv P) (fun a => a ≠ Action.setStorageFull true)
      (matcherInv_step P) actions s0 hnever hinit
  refine ⟨hinv.2.1, ?_, ?_, ?_⟩
  · intro hnil
    rw [hinv.2.1, hnil, buildMatcher_nil]
  · intro hbad
    rw [hinv.2.1]
    exact buildMatcher_of_bad_name _ hbad
  · intro hne hnames
    rw [hinv.2.1]
    exact buildMatcher_of_names _ hne hnames

theorem sampleRun_storedFaces :
    (run examplePlatform (initialState none) sampleRun).storedFaces.map
      (fun f => (f.name, f.descriptors)) = [(some (Json.str "Bob"), [sampleDescriptor])] := by
  have hn : jsTrim "Bob" = "Bob" := by decide
  have hd : (extractAll
      [{ id := 5, dataUrl := "data:image/jpeg;base64,AA==",
         detections := combineFrom [] 0
           [{ box := ⟨0, 0, 10, 10⟩, descriptor := some sampleDescriptor }],
         name := "" }]).descriptors = [sampleDescriptor] := by
    rw [extractAll_descriptors]
    simp [photoDescriptors, combineFrom, combineDetection]
  simp [run, sampleRun, step, loadStoredFaces, trainFaces, capturePhoto, startWebcam,
    updateStatus, showLoading, hideLoading, updateFaceMatcher, saveStoredFaces, initialState,
    sampleCapture, hn, hd, makeFaceData, StoredFace.name, getProp, trySaveStoredFaces,
    updateStoredFacesDisplay, displayThrows, propThrows, toPrimitiveThrows]

/-- C5 amended, at a concrete run from a page whose persisted record holds one identity
without a name: after the load and the enrollment of "Bob" the matcher is the one built
from the gallery, and it is `null`, the gallery holding the nameless identity and "Bob". -/
theorem C5_matcher_consistency_witness :
    (run examplePlatform (initialState (some namelessRecord)) sampleRun).faceMatcher
      = buildMatcher
        (run examplePlatform (initialState (some namelessRecord)) sampleRun).storedFaces ∧
    ((run examplePlatform (initialState (some namelessRecord)) sampleRun).storedFaces = [] →
      (run examplePlatform (initialState (some namelessRecord)) sampleRun).faceMatcher
        = none) :=
  ⟨(C5_matcher_consistency examplePlatform (initialState (some namelessRecord))
      (run examplePlatform (initialState (some namelessRecord)) sampleRun) sampleRun
      (by simp [State.IsInitial, initialState]) rfl displaySafe_namelessRecord
      (by simp [sampleRun]) rfl).1,
   (C5_matcher_consistency examplePlatform (initialState (some namelessRecord))
      (run examplePlatform (initialState (some namelessRecord)) sampleRun) sampleRun
      (by simp [State.IsInitial, initialState]) rfl displaySafe_namelessRecord
      (by simp [sampleRun]) rfl).2.1⟩

/-- The first slip that the amended C5 leaves out: a persisted record whose `imageSrc`
cannot be rendered makes the display throw inside the `try` block of `loadStoredFaces`,
after the matcher was built; the `catch` block empties the gallery and keeps the matcher,
which indexes "Alice". -/
theorem loadStoredFaces_unrenderable_record :
    (loadStoredFaces examplePlatform (initialState (some unrenderableRecord))).storedFaces
      = [] ∧
    (loadStoredFaces examplePlatform (initialState (some unrenderableRecord))).storedItem
      = none ∧
    ((loadStoredFaces examplePlatform
        (initialState (some unrenderableRecord))).faceMatcher.map
      (fun m => m.labeledDescriptors.map (fun ld => ld.label))) = some ["Alice"] := by
  have h := loadStoredFaces_of_display_throw examplePlatform
    (initialState (some unrenderableRecord)) _ _ rfl reviveFaces_unrenderableRecord
    (by simp [displayThrows, getProp, propThrows, toPrimitiveThrows])
  refine ⟨h.1, h.2.2.1, ?_⟩
  rw [h.2.1]
  simp [buildMatcher, mapExcept, newLabeledFaceDescriptors, StoredFace.name, getProp]

/-- The second slip that the amended C5 leaves out: when the storage is full, `setItem`
throws inside the `try` block of `trainFaces` after the push; the gallery holds the new
identity and the matcher is the one from before the enrollment. -/
theorem trainFaces_full_storage (s : State) (now : Nat)
    (hname : jsTrim s.personNameValue ≠ "")
    (hdesc : photoDescriptors s.capturedPhotos ≠ [])
    (hfull : s.storageFull = true) :
    (trainFaces s now).storedFaces = s.storedFaces ++ [trainedFace s now] ∧
    (trainFaces s now).faceMatcher = s.faceMatcher ∧
    (trainFaces s now).storedItem = s.storedItem := by
  rcases trainFaces_proceeds s now hname hdesc with
    ⟨hpush, ⟨_, hm, hi, _⟩ | ⟨hroom, _⟩ | ⟨hroom, _⟩⟩
  · exact ⟨hpush, hm, hi⟩
  · rw [hfull] at hroom
    exact absurd hroom (by simp)
  · rw [hfull] at hroom
    exact absurd hroom (by simp)

/-! ## C9: every identity has a descriptor -/

theorem storageGood_stringifyFaces (P : Platform) (faces : List StoredFace)
    (h : ∀ f ∈ faces, f.descriptors ≠ []) :
    StorageGood P (some (StoredText.json (stringifyFaces faces))) := by
  intro v loaded hv hr f hf
  simp only [Option.some.injEq, StoredText.json.injEq] at hv
  rw [← hv, reviveFaces_stringifyFaces] at hr
  simp only [Except.ok.injEq] at hr
  rw [← hr] at hf
  rcases List.mem_map.mp hf with ⟨g, hg, rfl⟩
  simpa [reloaded] using h g hg

theorem storageGood_none (P : Platform) : StorageGood P none := by
  intro v faces hv
  simp at hv

theorem descriptorInv_step (P : Platform) (s : State) (a : Action) (h : DescriptorInv P s) :
    DescriptorInv P (step P s a) := by
  rcases h with ⟨hfaces, hstore⟩
  by_cases hset : ∃ full, a = Action.setStorageFull full
  · rcases hset with ⟨full, rfl⟩
    exact ⟨hfaces, hstore⟩
  · have hpush : ∀ face : StoredFace, face.descriptors ≠ [] →
        ∀ f ∈ s.storedFaces ++ [face], f.descriptors ≠ [] := by
      intro face hface f hf
      rcases List.mem_append.mp hf with hf1 | hf1
      · exact hfaces f hf1
      · rw [List.mem_singleton.mp hf1]
        exact hface
    rcases (step_galleryStep P s a (fun full h => hset ⟨full, h⟩)).2 with
      ⟨h1, _, h3⟩ | ⟨_, h1, _, h3⟩ | ⟨v, faces, _, _, _, h1, _, h3⟩ |
      ⟨v, faces, hv, hr, _, h1, _, h3⟩ | ⟨index, h1, _, h3⟩ |
      ⟨face, hface, _, _, _, h1, _, h3⟩ | ⟨face, hface, _, h1, _, h3⟩ | ⟨h1, _, h3⟩
    · exact ⟨by rw [h1]; exact hfaces, by rw [h3]; exact hstore⟩
    · exact ⟨by rw [h1]; simp, by rw [h3]; exact storageGood_none P⟩
    · exact ⟨by rw [h1]; simp, by rw [h3]; exact storageGood_none P⟩
    · exact ⟨by rw [h1]; exact hstore v faces hv hr, by rw [h3]; exact hstore⟩
    · have hgood : ∀ f ∈ spliceOne s.storedFaces index, f.descriptors ≠ [] :=
        fun f hf => hfaces f (List.mem_of_mem_eraseIdx hf)
      exact ⟨by rw [h1]; exact hgood, by rw [h3]; exact storageGood_stringifyFaces P _ hgood⟩
    · exact ⟨by rw [h1]; exact hpush face hface,
        by rw [h3]; exact storageGood_stringifyFaces P _ (hpush face hface)⟩
    · refine ⟨by rw [h1]; exact hpush face hface, ?_⟩
      rcases h3 with h3 | h3
      · rw [h3]; exact hstore
      · rw [h3]; exact storageGood_stringifyFaces P _ (hpush face hface)
    · exact ⟨by rw [h1]; simp, by rw [h3]; exact storageGood_none P⟩

/-- C9 as stated fails: from a freshly loaded page whose persisted record holds an
identity "Alice" with an empty list of descriptors, `loadStoredFaces` reaches a state in
which `storedFaces` holds an identity without any descriptor. -/
theorem C9_empty_identity_counterexample :
    (initialState (some emptyIdentityRecord)).IsInitial ∧
    ReachableFrom examplePlatform (initialState (some emptyIdentityRecord))
      (loadStoredFaces examplePlatform (initialState (some emptyIdentityRecord))) ∧
    (loadStoredFaces examplePlatform (initialState (some emptyIdentityRecord))).storedFaces.map
      (fun f => (f.name, f.descriptors)) = [(some (Json.str "Alice"), [])] := by
  refine ⟨?_, ⟨[Action.loadStoredFaces], rfl⟩, ?_⟩
  · simp [State.IsInitial, initialState]
  · simp [loadStoredFaces, initialState, emptyIdentityRecord, truthyItem, jsonParse,
      reviveFaces, reviveFace, mapExcept, getProp, updateFaceMatcher, StoredFace.name,
      updateStoredFacesDisplay, displayThrows, propThrows, toPrimitiveThrows]

/-- C9, amended: in every state reachable from a freshly loaded page whose persisted
record is absent, or cannot be loaded, or loads to identities that have each at least one
descriptor, through any sequence of events of the script (among them `loadStoredFaces`,
`trainFaces`, `removeStoredFace` and `clearAllData`), every identity in `storedFaces` has
at least one descriptor. -/
theorem C9_identity_invariant (P : Platform) (s0 s : State)
    (h0 : s0.IsInitial) (hstore : StorageGood P s0.storedItem)
    (hreach : ReachableFrom P s0 s) :
    ∀ f ∈ s.storedFaces, f.descriptors ≠ [] := by
  rcases hreach with ⟨actions, hrun⟩
  have hinit : DescriptorInv P s0 := by
    rcases h0 with ⟨_, _, _, _, _, _, hf, _, _⟩
    exact ⟨by rw [hf]; simp, hstore⟩
  rw [← hrun]
  exact (run_invariant P (DescriptorInv P) (descriptorInv_step P) actions s0 hinit).1

/-- C9 amended, at a concrete run from a page without persisted record: the gallery holds
one identity, "Bob", and every identity in it has a descriptor. -/
theorem C9_identity_invariant_witness :
    (run examplePlatform (initialState none) sampleRun).storedFaces.length = 1 ∧
    (run examplePlatform (initialState none) sampleRun).storedFaces.all
      (fun f => decide (f.descriptors ≠ [])) = true := by
  have h := C9_identity_invariant examplePlatform (initialState none)
    (run examplePlatform (initialState none) sampleRun)
    (by simp [State.IsInitial, initialState])
    (by intro v faces hv; simp [initialState] at hv)
    ⟨sampleRun, rfl⟩
  refine ⟨?_, ?_⟩
  · have hl := congrArg List.length sampleRun_storedFaces
    simpa using hl
  · rw [List.all_eq_true]
    intro f hf
    simpa using h f hf

/-! ## C11: stop is idempotent -/

/-- C11: `stopRecognition` on an idle loop (`isRecognizing` false, `recognitionInterval`
null) leaves the loop state, the gallery, the matcher and the active timers as they were;
and from every state a second `stopRecognition` changes nothing that the first has not
already done. -/
theorem C11_stop_idempotent (s : State) :
    (s.isRecognizing = false → s.recognitionInterval = none →
      (stopRecognition s).isRecognizing = false ∧
      (stopRecognition s).recognitionInterval = none ∧
      (stopRecognition s).storedFaces = s.storedFaces ∧
      (stopRecognition s).faceMatcher = s.faceMatcher ∧
      (stopRecognition s).timers = s.timers ∧
      (stopRecognition s).lastTimerId = s.lastTimerId) ∧
    stopRecognition (stopRecognition s) = stopRecognition s := by
  refine ⟨?_, ?_⟩
  · intro _ hnone
    simp [stopRecognition, updateStatus, hnone]
  · cases hint : s.recognitionInterval with
    | none => simp [stopRecognition, updateStatus, hint]
    | some handle =>
      by_cases h0 : handle = 0
      · simp [stopRecognition, updateStatus, hint, h0]
      · simp [stopRecognition, updateStatus, clearInterval, hint, h0]

/-- C11 at a concrete state: an idle page with a gallery of one identity. -/
theorem C11_stop_idempotent_witness :
    (stopRecognition (galleryState [sampleFace "Alice"])).isRecognizing = false ∧
    (stopRecognition (galleryState [sampleFace "Alice"])).recognitionInterval = none ∧
    (stopRecognition (galleryState [sampleFace "Alice"])).timers = [] :=
  have h := (C11_stop_idempotent (galleryState [sampleFace "Alice"])).1 rfl rfl
  ⟨h.1, h.2.1, h.2.2.2.2.1⟩

/-! ## C15: start guard -/

/-- C15: with a non-empty gallery `startRecognition` sets `isRecognizing`, registers one
recognition timer under a fresh handle and keeps that handle in `recognitionInterval`;
with an empty gallery it reports an error and leaves `isRecognizing`,
`recognitionInterval` and the active timers as they were.  So an idle loop is running
after the call exactly when the gallery is not empty. -/
theorem C15_start_guard (s : State) :
    (s.storedFaces ≠ [] →
      (startRecognition s).isRecognizing = true ∧
      (startRecognition s).recognitionInterval = some (s.lastTimerId + 1) ∧
      (startRecognition s).timers
        = s.timers ++ [{ id := s.lastTimerId + 1, callback := TimerCallback.recognizeFaces }]) ∧
    (s.storedFaces = [] →
      (startRecognition s).status.type = "error" ∧
      (startRecognition s).isRecognizing = s.isRecognizing ∧
      (startRecognition s).recognitionInterval = s.recognitionInterval ∧
      (startRecognition s).timers = s.timers) ∧
    (s.isRecognizing = false →
      ((startRecognition s).isRecognizing = true ↔ s.storedFaces ≠ [])) := by
  refine ⟨?_, ?_, ?_⟩
  · intro hne
    have hlen : ¬ s.storedFaces.length = 0 := fun h0 => hne (List.length_eq_zero.mp h0)
    simp [startRecognition, hlen, setInterval, updateStatus]
  · intro hnil
    simp [startRecognition, hnil, updateStatus]
  · intro hidle
    by_cases hnil : s.storedFaces = []
    · simp [startRecognition, hnil, updateStatus, hidle]
    · have hlen : ¬ s.storedFaces.length = 0 := fun h0 => hnil (List.length_eq_zero.mp h0)
      simp [startRecognition, hlen, setInterval, updateStatus, hnil]

/-- C15 at concrete states: a page with one identity, and a page with an empty gallery. -/
theorem C15_start_guard_witness :
    (startRecognition (galleryState [sampleFace "Alice"])).isRecognizing = true ∧
    (startRecognition (galleryState [sampleFace "Alice"])).recognitionInterval = some 1 ∧
    (startRecognition (initialState none)).status.type = "error" ∧
    (startRecognition (initialState none)).isRecognizing = false ∧
    (startRecognition (initialState none)).timers = [] :=
  have h1 := (C15_start_guard (galleryState [sampleFace "Alice"])).1
    (by simp [galleryState])
  have h2 := (C15_start_guard (initialState none)).2.1 rfl
  ⟨h1.1, h1.2.1, h2.1, h2.2.1, h2.2.2.2⟩

/-! ## C16: age and gender label of an enrolled identity -/

theorem foldl_extractDetection_labels (ds : List Detection) :
    ∀ acc : Extracted,
      ((ds.foldl extractDetection acc).ageInfo, (ds.foldl extractDetection acc).genderInfo)
        = (match ds.reverse.find? hasLabels with
          | some d => labelsOf d
          | none => (acc.ageInfo, acc.genderInfo)) := by
  induction ds with
  | nil => intro acc; rfl
  | cons d rest ih =>
    intro acc
    rw [List.foldl_cons, ih, List.reverse_cons, List.find?_append]
    cases hrest : rest.reverse.find? hasLabels with
    | some e => rfl
    | none =>
      simp only [Option.or, List.find?_cons, List.find?_nil]
      unfold extractDetection hasLabels
      cases hd : d.descriptor with
      | none => simp
      | some x =>
        by_cases hl : (truthyNum d.age && truthyStr d.gender) = true
        · simp [hl, labelsOf]
        · simp [hl]

theorem extractAll_eq_foldl (photos : List CapturedPhoto) :
    ∀ acc : Extracted,
      photos.foldl extractPhoto acc = (allDetections photos).foldl extractDetection acc := by
  induction photos with
  | nil => intro acc; rfl
  | cons photo rest ih =>
    intro acc
    rw [List.foldl_cons, ih]
    simp [allDetections, extractPhoto, List.flatMap_cons, List.foldl_append]

/-- The labels kept by the loops of `trainFaces` are those of the last detection that has a
descriptor, an age and a gender. -/
theorem extractAll_labels (photos : List CapturedPhoto) :
    ((extractAll photos).ageInfo, (extractAll photos).genderInfo) = lastLabels photos := by
  unfold extractAll lastLabels
  rw [extractAll_eq_foldl, foldl_extractDetection_labels]

/-- C16, evaluated on a buffer of one photo with two faces that both have a descriptor, an
age and a gender (a man of 30.4 and a woman of 52), enrolled as "Bob": the identity stored
by `trainFaces` bears the labels of the second face, "Age: 52" and "female (80%)", whereas
the first such detection gives "Age: 30" and "male (90%)".  The loops overwrite the labels
at every such detection, so the last one wins. -/
theorem C16_labels_come_from_last_detection :
    (trainFaces { galleryState [] with
        personNameValue := "Bob", capturedPhotos := twoPeoplePhotos } 7).storedFaces.map
      (fun f => (getProp "age" f.props, getProp "gender" f.props))
      = [(some (Json.str "Age: 52"), some (Json.str "female (80%)"))] ∧
    firstLabels twoPeoplePhotos = ("Age: 30", "male (90%)") ∧
    lastLabels twoPeoplePhotos = ("Age: 52", "female (80%)") := by
  have hfirst : firstLabels twoPeoplePhotos = ("Age: 30", "male (90%)") := by
    have h1 : mathRound (152 / 5) = 30 := by unfold mathRound; norm_num
    have h2 : mathRound (9 / 10 * 100) = 90 := by unfold mathRound; norm_num
    simp [firstLabels, allDetections, twoPeoplePhotos, hasLabels, truthyNum, truthyStr,
      labelsOf, timesHundred, h1, h2]
    decide
  have hlast : lastLabels twoPeoplePhotos = ("Age: 52", "female (80%)") := by
    have h1 : mathRound 52 = 52 := by unfold mathRound; norm_num
    have h2 : mathRound (4 / 5 * 100) = 80 := by unfold mathRound; norm_num
    simp [lastLabels, allDetections, twoPeoplePhotos, hasLabels, truthyNum, truthyStr,
      labelsOf, timesHundred, h1, h2]
    decide
  refine ⟨?_, hfirst, hlast⟩
  have hlab := extractAll_labels twoPeoplePhotos
  rw [hlast] at hlab
  have hage : (extractAll twoPeoplePhotos).ageInfo = "Age: 52" := congrArg Prod.fst hlab
  have hgender : (extractAll twoPeoplePhotos).genderInfo = "female (80%)" :=
    congrArg Prod.snd hlab
  have hdesc : (extractAll twoPeoplePhotos).descriptors = [[1, 2], [3, 4]] := by
    rw [extractAll_descriptors]
    simp [photoDescriptors, twoPeoplePhotos]
  have hn : jsTrim "Bob" = "Bob" := by decide
  have hlen : twoPeoplePhotos.length ≠ 0 := by decide
  simp [trainFaces, galleryState, initialState, hn, hlen, hdesc, hage, hgender, showLoading,
    hideLoading, updateStatus, updateFaceMatcher, saveStoredFaces, makeFaceData, getProp,
    trySaveStoredFaces, updateStoredFacesDisplay, displayThrows, propThrows,
    toPrimitiveThrows]

/-! ## C13: capture postcondition -/

theorem combineFrom_length (ageGenderDetections : List AgeGender)
    (detections : List FaceDetection) :
    ∀ index : Nat, (combineFrom ageGenderDetections index detections).length
      = detections.length := by
  induction detections with
  | nil => intro index; rfl
  | cons d rest ih =>
    intro index
    simp [combineFrom, ih]

theorem combineFrom_get? (ageGenderDetections : List AgeGender)
    (detections : List FaceDetection) :
    ∀ index i : Nat, (combineFrom ageGenderDetections index detections).get? i
      = (detections.get? i).map (combineDetection ageGenderDetections (index + i)) := by
  induction detections with
  | nil => intro index i; simp [combineFrom]
  | cons d rest ih =>
    intro index i
    cases i with
    | zero => simp [combineFrom]
    | succ j =>
      simp only [combineFrom, List.get?_cons_succ]
      rw [ih (index + 1) j]
      have hidx : index + 1 + j = index + (j + 1) := by omega
      rw [hidx]

theorem combineDetection_fields (ageGenderDetections : List AgeGender) (index : Nat)
    (detection : FaceDetection) :
    (combineDetection ageGenderDetections index detection).descriptor = detection.descriptor ∧
    (combineDetection ageGenderDetections index detection).box = detection.box ∧
    (combineDetection ageGenderDetections index detection).age
      = (ageGenderDetections.get? index).map (fun a => a.age) ∧
    (combineDetection ageGenderDetections index detection).gender
      = (ageGenderDetections.get? index).map (fun a => a.gender) ∧
    (combineDetection ageGenderDetections index detection).genderProbability
      = (ageGenderDetections.get? index).map (fun a => a.genderProbability) := by
  unfold combineDetection
  cases ageGenderDetections.get? index <;> simp

/-- C13: with the webcam running, when the descriptor pass finds no face `capturePhoto`
leaves `capturedPhotos` unchanged; when it finds N faces, N at least 1, exactly one photo
is appended to `capturedPhotos`, with exactly N detections, the i-th of which carries the
descriptor (and the box) of the i-th detection of the descriptor pass together with the
age, gender and gender probability of the i-th detection of the age and gender pass, or
`null` for the three when that pass has no i-th detection. -/
theorem C13_capture_postcondition (s : State) (input : CaptureInput)
    (hstream : s.stream = true) (hpaused : input.paused = false)
    (hended : input.ended = false) :
    (input.detections = [] → (capturePhoto s input).capturedPhotos = s.capturedPhotos) ∧
    (input.detections ≠ [] →
      ∃ photo : CapturedPhoto,
        (capturePhoto s input).capturedPhotos = s.capturedPhotos ++ [photo] ∧
        photo.detections.length = input.detections.length ∧
        ∀ (i : Nat) (detection : FaceDetection), input.detections.get? i = some detection →
          ∃ combined : Detection, photo.detections.get? i = some combined ∧
            combined.descriptor = detection.descriptor ∧
            combined.box = detection.box ∧
            combined.age = (input.ageGenderDetections.get? i).map (fun a => a.age) ∧
            combined.gender = (input.ageGenderDetections.get? i).map (fun a => a.gender) ∧
            combined.genderProbability
              = (input.ageGenderDetections.get? i).map (fun a => a.genderProbability)) := by
  have hguard : (!s.stream || input.paused || input.ended) = false := by
    simp [hstream, hpaused, hended]
  refine ⟨?_, ?_⟩
  · intro hnil
    simp [capturePhoto, hguard, hnil, updateStatus]
  · intro hne
    have hlen : ¬ input.detections.length = 0 := fun h0 => hne (List.length_eq_zero.mp h0)
    refine ⟨{ id := input.now, dataUrl := input.dataUrl,
              detections := combineFrom input.ageGenderDetections 0 input.detections,
              name := "" }, ?_, ?_, ?_⟩
    · simp [capturePhoto, hguard, hlen, updateStatus]
    · exact combineFrom_length _ _ 0
    · intro i detection hi
      refine ⟨combineDetection input.ageGenderDetections i detection, ?_,
        combineDetection_fields _ _ _⟩
      show (combineFrom input.ageGenderDetections 0 input.detections).get? i = _
      rw [combineFrom_get?, hi]
      simp

/-- C13 at a concrete capture: two faces, of which the age and gender pass found one; the
photo appended to an empty buffer has two detections, the first with age 52 and the second
with a `null` age. -/
theorem C13_capture_postcondition_witness :
    ∃ photo : CapturedPhoto,
      (capturePhoto (startWebcam (initialState none) true) twoFaceCapture).capturedPhotos
        = [photo] ∧
      photo.detections.length = 2 ∧
      photo.detections.map (fun d => (d.descriptor, d.age))
        = [(some [1, 2], some 52), (some [3, 4], none)] := by
  have h := (C13_capture_postcondition (startWebcam (initialState none) true) twoFaceCapture
    rfl rfl rfl).2 (by simp [twoFaceCapture])
  rcases h with ⟨photo, hphotos, hlen, hdet⟩
  refine ⟨photo, by simpa [startWebcam, updateStatus, initialState] using hphotos,
    by simpa [twoFaceCapture] using hlen, ?_⟩
  rcases hdet 0 _ rfl with ⟨c0, hc0, hd0, _, ha0, _, _⟩
  rcases hdet 1 _ rfl with ⟨c1, hc1, hd1, _, ha1, _, _⟩
  have hlen2 : photo.detections.length = 2 := by simpa [twoFaceCapture] using hlen
  match hp : photo.detections, hlen2 with
  | [a, b], _ =>
    rw [hp] at hc0 hc1
    simp only [List.get?_cons_zero, List.get?_cons_succ, Option.some.injEq] at hc0 hc1
    subst hc0 hc1
    simp [hd0, hd1, ha0, ha1, twoFaceCapture]

/-! ## Lemmas on the loop of `recognizeFaces` -/

theorem recognizeAt_eq (P : Platform) (matcher : FaceMatcher) (input : TickInput)
    (acc : List RecognitionResult) (i : Nat) (out : List RecognitionResult)
    (h : recognizeAt P matcher input acc i = some out) :
    out = acc ++ (resultFor P matcher input i).toList := by
  unfold recognizeAt at h
  unfold resultFor
  cases hd : input.detections.get? i with
  | none =>
    rw [hd] at h
    exact absurd h (by simp)
  | some detection =>
    rw [hd] at h
    dsimp only at h
    rw [Option.some_bind]
    cases hq : detection.descriptor with
    | none =>
      rw [hq] at h
      dsimp only at h
      rw [Option.some.injEq] at h
      rw [← h]
      simp
    | some descriptor =>
      rw [hq] at h
      dsimp only at h
      rw [Option.some_bind]
      cases hf : matcher.findBestMatch P descriptor with
      | none =>
        rw [hf] at h
        exact absurd h (by simp)
      | some found =>
        rw [hf] at h
        dsimp only at h
        rw [Option.some.injEq] at h
        rw [← h]
        simp

/-- The loop of `recognizeFaces`, when it completes, has appended the results for the
positions it went through, in order. -/
theorem recognizeLoop_eq (P : Platform) (matcher : FaceMatcher) (input : TickInput) :
    ∀ (count i : Nat) (acc out : List RecognitionResult),
      recognizeLoop P matcher input count i acc = some out →
      out = acc ++ (List.range' i count).filterMap (resultFor P matcher input) := by
  intro count
  induction count with
  | zero =>
    intro i acc out h
    simp only [recognizeLoop, Option.some.injEq] at h
    simp [← h]
  | succ count ih =>
    intro i acc out h
    simp only [recognizeLoop] at h
    cases hat : recognizeAt P matcher input acc i with
    | none => rw [hat] at h; simp at h
    | some mid =>
      rw [hat] at h
      have hmid := recognizeAt_eq P matcher input acc i mid hat
      have hout := ih (i + 1) mid out h
      rw [hout, hmid, List.range'_succ, List.filterMap_cons]
      cases resultFor P matcher input i <;> simp

/-- A matcher that indexes at least one descriptor answers every query. -/
theorem findBestMatch_isSome (P : Platform) (matcher : FaceMatcher)
    (hidx : ∃ ld ∈ matcher.labeledDescriptors, ld.descriptors ≠ [])
    (query : Float32Array) : ∃ found, matcher.findBestMatch P query = some found := by
  have hne : matcher.candidates P query ≠ [] := by
    rcases hidx with ⟨ld, hld, hdesc⟩
    intro hnil
    simp only [FaceMatcher.candidates, List.flatMap_eq_nil_iff] at hnil
    have := hnil ld hld
    simp at this
    exact hdesc this
  unfold FaceMatcher.findBestMatch
  cases hc : matcher.candidates P query with
  | nil => exact absurd hc hne
  | cons c rest =>
    simp only [bestCandidate]
    split_ifs
    · exact ⟨_, rfl⟩
    · exact ⟨_, rfl⟩

/-- With a matcher that indexes at least one descriptor, the loop of `recognizeFaces`
completes on the positions that hold a detection. -/
theorem recognizeLoop_isSome (P : Platform) (matcher : FaceMatcher) (input : TickInput)
    (hidx : ∃ ld ∈ matcher.labeledDescriptors, ld.descriptors ≠ []) :
    ∀ (count i : Nat) (acc : List RecognitionResult),
      i + count ≤ input.detections.length →
      ∃ out, recognizeLoop P matcher input count i acc = some out := by
  intro count
  induction count with
  | zero => intro i acc _; exact ⟨acc, rfl⟩
  | succ count ih =>
    intro i acc hle
    have hi : i < input.detections.length := by omega
    have hat : ∃ mid, recognizeAt P matcher input acc i = some mid := by
      unfold recognizeAt
      rw [List.get?_eq_get hi]
      dsimp only
      cases hq : (input.detections.get ⟨i, hi⟩).descriptor with
      | none => exact ⟨acc, rfl⟩
      | some descriptor =>
        rcases findBestMatch_isSome P matcher hidx descriptor with ⟨found, hfound⟩
        dsimp only
        rw [hfound]
        exact ⟨_, rfl⟩
    rcases hat with ⟨mid, hmid⟩
    simp only [recognizeLoop, hmid]
    exact ih (i + 1) mid (by omega)

/-- What a tick of `recognizeFaces` writes when the loop is running, the video is playing,
a matcher is present, the loop over the detections completes and the frame holds a
face. -/
theorem recognizeFaces_running (P : Platform) (s : State) (matcher : FaceMatcher)
    (input : TickInput) (results : List RecognitionResult)
    (hrun : s.isRecognizing = true) (hpaused : input.paused = false)
    (hended : input.ended = false) (hloaded : input.faceApiLoaded = true)
    (hm : s.faceMatcher = some matcher)
    (hloop : recognizeLoop P matcher input (min input.detections.length 2) 0 [] = some results)
    (hne : input.detections ≠ []) :
    (recognizeFaces P s input).overlayLabels
      = overlayLabelsFrom results 0
          ((input.detections.map (fun d => input.resizeBox d.box)).take 2) ∧
    (recognizeFaces P s input).resultsView
      = (if results.length = 0 then ResultsView.noFaces
         else ResultsView.items (resultItemsFrom 0 results)) := by
  have hguard : (!s.isRecognizing || input.paused || input.ended) = false := by
    simp [hrun, hpaused, hended]
  have hlen : input.detections.length > 0 := List.length_pos.mpr hne
  unfold recognizeFaces
  rw [hguard, hloaded, hm]
  simp only [Bool.false_eq_true, if_false, Bool.not_true, hloop, hlen, if_true,
    updateRecognitionResultsDisplay]
  split_ifs <;> exact ⟨rfl, rfl⟩

theorem cappedResults_length (P : Platform) (matcher : FaceMatcher) (input : TickInput) :
    (cappedResults P matcher input).length ≤ min 2 input.detections.length := by
  unfold cappedResults
  exact (List.length_filterMap_le _ _).trans (by simp)

/-- The loop of `recognizeFaces`, when it completes, has built the results for the first
two detections. -/
theorem recognizeLoop_capped (P : Platform) (matcher : FaceMatcher) (input : TickInput)
    (results : List RecognitionResult)
    (h : recognizeLoop P matcher input (min input.detections.length 2) 0 [] = some results) :
    results = cappedResults P matcher input := by
  have := recognizeLoop_eq P matcher input _ 0 [] results h
  rw [this, cappedResults, List.range_eq_range', min_comm]
  simp

/-! ## C14: face cap -/

/-- C14: in a tick of `recognizeFaces` with the loop running, the video playing and a
matcher that indexes at least one descriptor, the loop over the detections completes, and
the result list it builds is the list of the matcher's answers for the detections at
positions 0 and 1 that exist and carry a descriptor, in detection order.  So the matcher
is asked only about detections among the first two, the list has at most
min(2, number of detections) entries, and it is the list shown in the results panel. -/
theorem C14_face_cap (P : Platform) (s : State) (matcher : FaceMatcher) (input : TickInput)
    (hrun : s.isRecognizing = true) (hpaused : input.paused = false)
    (hended : input.ended = false) (hloaded : input.faceApiLoaded = true)
    (hm : s.faceMatcher = some matcher)
    (hidx : ∃ ld ∈ matcher.labeledDescriptors, ld.descriptors ≠ []) :
    ∃ results : List RecognitionResult,
      recognizeLoop P matcher input (min input.detections.length 2) 0 [] = some results ∧
      results = cappedResults P matcher input ∧
      results.length ≤ min 2 input.detections.length ∧
      (∀ r ∈ results, ∃ i, i < 2 ∧ i < input.detections.length ∧
        resultFor P matcher input i = some r) ∧
      (input.detections ≠ [] →
        (recognizeFaces P s input).resultsView
          = (if results.length = 0 then ResultsView.noFaces
             else ResultsView.items (resultItemsFrom 0 results))) := by
  rcases recognizeLoop_isSome P matcher input hidx (min input.detections.length 2) 0 []
    (by simp) with ⟨results, hloop⟩
  have hcap := recognizeLoop_capped P matcher input results hloop
  refine ⟨results, hloop, hcap, ?_, ?_, ?_⟩
  · rw [hcap]
    exact cappedResults_length P matcher input
  · intro r hr
    rw [hcap, cappedResults, List.mem_filterMap] at hr
    rcases hr with ⟨i, hi, hres⟩
    rw [List.mem_range, lt_min_iff] at hi
    exact ⟨i, hi.1, hi.2, hres⟩
  · intro hne
    exact (recognizeFaces_running P s matcher input results hrun hpaused hended hloaded hm
      hloop hne).2

theorem runningState_isRecognizing : runningState.isRecognizing = true := by
  simp [runningState, startRecognition, galleryState, setInterval, updateStatus]

theorem runningState_faceMatcher : runningState.faceMatcher = some aliceMatcher := by
  simp [runningState, startRecognition, galleryState, setInterval, updateStatus, buildMatcher,
    mapExcept, newLabeledFaceDescriptors, sampleFace, makeFaceData, StoredFace.name, getProp,
    aliceMatcher]

theorem aliceMatcher_indexes :
    ∃ ld ∈ aliceMatcher.labeledDescriptors, ld.descriptors ≠ [] :=
  ⟨{ label := "Alice", descriptors := [sampleDescriptor] }, by simp [aliceMatcher], by simp⟩

/-- C14 at a concrete tick: a frame with three faces, the gallery holding "Alice"; the
loop completes with at most two results. -/
theorem C14_face_cap_witness :
    threeFaceTick.detections.length = 3 ∧
    ∃ results : List RecognitionResult,
      recognizeLoop examplePlatform aliceMatcher threeFaceTick
        (min threeFaceTick.detections.length 2) 0 [] = some results ∧
      results.length ≤ 2 := by
  refine ⟨rfl, ?_⟩
  rcases C14_face_cap examplePlatform runningState aliceMatcher threeFaceTick
    runningState_isRecognizing rfl rfl rfl runningState_faceMatcher aliceMatcher_indexes
    with ⟨results, hloop, _, hlen, _, _⟩
  exact ⟨results, hloop, hlen.trans (min_le_left _ _)⟩

/-! ## C17: label and box alignment -/

theorem overlayLabelsFrom_get? (results : List RecognitionResult) (boxes : List Box) :
    ∀ index i : Nat, (overlayLabelsFrom results index boxes).get? i
      = (boxes.get? i).map (overlayLabel results (index + i)) := by
  induction boxes with
  | nil => intro index i; simp [overlayLabelsFrom]
  | cons box rest ih =>
    intro index i
    cases i with
    | zero => simp [overlayLabelsFrom]
    | succ j =>
      simp only [overlayLabelsFrom, List.get?_cons_succ]
      rw [ih (index + 1) j]
      have hidx : index + 1 + j = index + (j + 1) := by omega
      rw [hidx]

theorem resultItemsFrom_get? (results : List RecognitionResult) :
    ∀ index i : Nat, (resultItemsFrom index results).get? i
      = (results.get? i).map (resultItem (index + i)) := by
  induction results with
  | nil => intro index i; simp [resultItemsFrom]
  | cons r rest ih =>
    intro index i
    cases i with
    | zero => simp [resultItemsFrom]
    | succ j =>
      simp only [resultItemsFrom, List.get?_cons_succ]
      rw [ih (index + 1) j]
      have hidx : index + 1 + j = index + (j + 1) := by omega
      rw [hidx]

/-- When each of the first two detections has a result, the result at position `i` of the
list is the result for the detection at position `i`. -/
theorem cappedResults_get? (P : Platform) (matcher : FaceMatcher) (input : TickInput)
    (hall : ∀ i, i < min 2 input.detections.length →
      ∃ r, resultFor P matcher input i = some r) :
    ∀ i, i < min 2 input.detections.length →
      (cappedResults P matcher input).get? i = resultFor P matcher input i := by
  intro i hi
  unfold cappedResults
  have hk : min 2 input.detections.length = 0 ∨ min 2 input.detections.length = 1 ∨
      min 2 input.detections.length = 2 := by omega
  rcases hk with hk | hk | hk
  · omega
  · rw [hk] at hi hall ⊢
    have hi0 : i = 0 := by omega
    subst hi0
    rcases hall 0 (by omega) with ⟨r0, h0⟩
    simp [List.range_succ, h0]
  · rw [hk] at hi hall ⊢
    rcases hall 0 (by omega) with ⟨r0, h0⟩
    rcases hall 1 (by omega) with ⟨r1, h1⟩
    have hi01 : i = 0 ∨ i = 1 := by omega
    rcases hi01 with rfl | rfl
    · simp [List.range_succ, h0, h1]
    · simp [List.range_succ, h0, h1]

/-- C17: in a tick of `recognizeFaces` with the loop running, the video playing and a
matcher that indexes at least one descriptor, on a frame as the descriptor pass of the
inference library returns it, each of the first two detections carrying its `Float32Array`
descriptor, for every i < min(2, number of detections) the label drawn at the box of the
i-th detection and the i-th row of the results panel bear the name and the distance of the
matcher's answer for the i-th detection's own descriptor. -/
theorem C17_label_box_alignment (P : Platform) (s : State) (matcher : FaceMatcher)
    (input : TickInput)
    (hrun : s.isRecognizing = true) (hpaused : input.paused = false)
    (hended : input.ended = false) (hloaded : input.faceApiLoaded = true)
    (hm : s.faceMatcher = some matcher)
    (hidx : ∃ ld ∈ matcher.labeledDescriptors, ld.descriptors ≠ [])
    (hdesc : ∀ (j : Nat) (e : FaceDetection), j < 2 → input.detections.get? j = some e →
      e.descriptor.isSome = true)
    (i : Nat) (d : FaceDetection) (q : Float32Array)
    (hi : i < 2) (hd : input.detections.get? i = some d) (hq : d.descriptor = some q) :
    ∃ (found : FaceMatch) (label : OverlayLabel) (rows : List ResultItem) (row : ResultItem),
      matcher.findBestMatch P q = some found ∧
      (recognizeFaces P s input).overlayLabels.get? i = some label ∧
      label.box = input.resizeBox d.box ∧
      label.label
        = (if Num.lt found.distance (Num.fin pointSix) then found.label else "Unknown") ∧
      label.confidence = confidenceOf found.distance ∧
      (recognizeFaces P s input).resultsView = ResultsView.items rows ∧
      rows.get? i = some row ∧
      row.name
        = (if Num.lt found.distance (Num.fin pointSix) then found.label else "Unknown") ∧
      row.distance = found.distance := by
  have hin : i < input.detections.length := by
    rcases Nat.lt_or_ge i input.detections.length with h | h
    · exact h
    · rw [List.get?_eq_none.mpr h] at hd
      exact absurd hd (by simp)
  have hne : input.detections ≠ [] := by
    intro hnil
    rw [hnil] at hin
    simp at hin
  have hall : ∀ j, j < min 2 input.detections.length →
      ∃ r, resultFor P matcher input j = some r := by
    intro j hj
    rw [lt_min_iff] at hj
    have hsome := hdesc j _ hj.1 (List.get?_eq_get hj.2)
    rcases Option.isSome_iff_exists.mp hsome with ⟨qj, hqj⟩
    rcases findBestMatch_isSome P matcher hidx qj with ⟨fj, hfj⟩
    refine ⟨makeResult fj (input.ageGenderDetections.get? j), ?_⟩
    unfold resultFor
    rw [List.get?_eq_get hj.2, Option.some_bind, hqj, Option.some_bind, hfj]
    rfl
  rcases findBestMatch_isSome P matcher hidx q with ⟨found, hfound⟩
  rcases recognizeLoop_isSome P matcher input hidx (min input.detections.length 2) 0 []
    (by simp) with ⟨results, hloop⟩
  have hcap := recognizeLoop_capped P matcher input results hloop
  have hres : results.get? i = some (makeResult found (input.ageGenderDetections.get? i)) := by
    rw [hcap, cappedResults_get? P matcher input hall i (lt_min_iff.mpr ⟨hi, hin⟩)]
    unfold resultFor
    rw [hd, Option.some_bind, hq, Option.some_bind, hfound]
    rfl
  have hlen : ¬ results.length = 0 := by
    intro h0
    rw [List.length_eq_zero.mp h0] at hres
    simp at hres
  rcases recognizeFaces_running P s matcher input results hrun hpaused hended hloaded hm
    hloop hne with ⟨hlabels, hview⟩
  have hbox : ((input.detections.map (fun e => input.resizeBox e.box)).take 2).get? i
      = some (input.resizeBox d.box) := by
    rw [List.get?_eq_getElem?, List.getElem?_take, if_pos hi, List.getElem?_map,
      ← List.get?_eq_getElem?, hd]
    rfl
  refine ⟨found,
    overlayLabel results i (input.resizeBox d.box),
    resultItemsFrom 0 results,
    resultItem i (makeResult found (input.ageGenderDetections.get? i)),
    hfound, ?_, ?_, ?_, ?_, ?_, ?_, ?_, ?_⟩
  · rw [hlabels, overlayLabelsFrom_get?, hbox]
    simp
  · unfold overlayLabel
    rw [hres]
  · unfold overlayLabel
    rw [hres]
    simp [makeResult]
  · unfold overlayLabel
    rw [hres]
    simp [makeResult]
  · rw [hview, if_neg hlen]
  · rw [resultItemsFrom_get?, hres]
    simp
  · simp [resultItem, makeResult]
  · simp [resultItem, makeResult]

/-- C17 at a concrete tick: a frame with three faces that all show the descriptor of
"Alice"; the label at position 1 sits on the box of the second detection and reads
"Alice". -/
theorem C17_label_box_alignment_witness :
    ∃ label : OverlayLabel,
      (recognizeFaces examplePlatform runningState threeFaceTick).overlayLabels.get? 1
        = some label ∧
      label.box = ⟨20, 0, 10, 10⟩ ∧
      label.label = "Alice" := by
  have hfound : aliceMatcher.findBestMatch examplePlatform sampleDescriptor
      = some { label := "Alice", distance := 0 } := findBestMatch_sample "Alice"
  rcases C17_label_box_alignment examplePlatform runningState aliceMatcher threeFaceTick
    runningState_isRecognizing rfl rfl rfl runningState_faceMatcher aliceMatcher_indexes
    (by
      intro j e hj he
      have hj01 : j = 0 ∨ j = 1 := by omega
      rcases hj01 with rfl | rfl
      · simp only [threeFaceTick, List.get?_cons_zero, Option.some.injEq] at he
        rw [← he]; rfl
      · simp only [threeFaceTick, List.get?_cons_succ, List.get?_cons_zero,
          Option.some.injEq] at he
        rw [← he]; rfl)
    1 { box := ⟨20, 0, 10, 10⟩, descriptor := some sampleDescriptor } sampleDescriptor
    (by decide) rfl rfl
    with ⟨found, label, rows, row, hf, hlabel, hbox, hname, _⟩
  rw [hfound, Option.some.injEq] at hf
  refine ⟨label, hlabel, hbox, ?_⟩
  rw [hname, ← hf]
  simp [zero_lt_pointSix]

/-! ## C12: empty-gallery matcher -/

/-- While `faceMatcher` is `null`, a tick of `recognizeFaces` leaves the state as it was. -/
theorem recognizeFaces_of_null_matcher (P : Platform) (s : State) (input : TickInput)
    (hnone : s.faceMatcher = none) : recognizeFaces P s input = s := by
  unfold recognizeFaces
  by_cases h1 : (!s.isRecognizing || input.paused || input.ended) = true
  · rw [if_pos h1]
  · rw [if_neg h1]
    by_cases h2 : (!input.faceApiLoaded) = true
    · rw [if_pos h2]
    · rw [if_neg h2]
      split
      · rfl
      · rename_i matcher hm
        rw [hnone] at hm
        exact absurd hm (by simp)

theorem startRecognition_of_gallery (s : State) (h : s.storedFaces.length ≠ 0) :
    (startRecognition s).isRecognizing = true ∧
    (startRecognition s).faceMatcher = s.faceMatcher := by
  simp [startRecognition, h, setInterval, updateStatus]

theorem clearAllData_confirmed (s : State) :
    (clearAllData s true).storedFaces = [] ∧
    (clearAllData s true).faceMatcher = none ∧
    (clearAllData s true).isRecognizing = s.isRecognizing ∧
    (clearAllData s true).overlayLabels = s.overlayLabels ∧
    (clearAllData s true).resultsView = s.resultsView := by
  simp [clearAllData, showMessage]

theorem recognizeFaces_isRecognizing (P : Platform) (s : State) (input : TickInput) :
    (recognizeFaces P s input).isRecognizing = s.isRecognizing := by
  unfold recognizeFaces
  by_cases h1 : (!s.isRecognizing || input.paused || input.ended) = true
  · rw [if_pos h1]
  · rw [if_neg h1]
    by_cases h2 : (!input.faceApiLoaded) = true
    · rw [if_pos h2]
    · rw [if_neg h2]
      split
      · rfl
      · dsimp only
        split
        · rfl
        · simp only [updateRecognitionResultsDisplay]
          split_ifs <;> rfl

theorem sampleRun_faceMatcher :
    (run examplePlatform (initialState none) sampleRun).faceMatcher
      = some { labeledDescriptors := [{ label := "Bob", descriptors := [sampleDescriptor] }],
               distanceThreshold := Num.fin pointSix } := by
  have hn : jsTrim "Bob" = "Bob" := by decide
  have hd : (extractAll
      [{ id := 5, dataUrl := "data:image/jpeg;base64,AA==",
         detections := combineFrom [] 0
           [{ box := ⟨0, 0, 10, 10⟩, descriptor := some sampleDescriptor }],
         name := "" }]).descriptors = [sampleDescriptor] := by
    rw [extractAll_descriptors]
    simp [photoDescriptors, combineFrom, combineDetection]
  simp [run, sampleRun, step, loadStoredFaces, trainFaces, capturePhoto, startWebcam,
    updateStatus, showLoading, hideLoading, updateFaceMatcher, saveStoredFaces, initialState,
    sampleCapture, hn, hd, makeFaceData, StoredFace.name, getProp, trySaveStoredFaces,
    updateStoredFacesDisplay, displayThrows, propThrows, toPrimitiveThrows, buildMatcher,
    mapExcept, newLabeledFaceDescriptors]

/-- On the example platform, with the sample descriptor indexed under one label, the loop
of `recognizeFaces` on the frame with three faces builds two results, each with that label
at distance 0. -/
theorem threeFaceTick_loop (label : String) :
    recognizeLoop examplePlatform
      { labeledDescriptors := [{ label := label, descriptors := [sampleDescriptor] }],
        distanceThreshold := Num.fin pointSix } threeFaceTick
      (min threeFaceTick.detections.length 2) 0 []
      = some [makeResult { label := label, distance := 0 } none,
              makeResult { label := label, distance := 0 } none] := by
  have hmin : min threeFaceTick.detections.length 2 = 2 := by decide
  rw [hmin]
  simp only [recognizeLoop, recognizeAt, threeFaceTick, List.get?_cons_zero,
    List.get?_cons_succ, List.get?_nil, findBestMatch_sample, List.nil_append,
    List.cons_append]

theorem staleState_eq :
    staleState = clearAllData (recognizeFaces examplePlatform
      (startRecognition (run examplePlatform (initialState none) sampleRun))
      threeFaceTick) true := by
  rfl

/-- C12 as stated fails: "Bob" is enrolled, recognition is started, a tick recognizes "Bob"
in a frame, and all data is cleared while the loop is running.  The gallery is then empty
and `faceMatcher` is `null`; the next tick, on a frame with three faces, playing, with the
library loaded, returns at the test of `faceMatcher` and produces no unknown result: after
it the overlay and the results panel still report the gallery name "Bob" as recognized. -/
theorem C12_stale_name_counterexample :
    (initialState none).IsInitial ∧
    ReachableFrom examplePlatform (initialState none) staleState ∧
    staleState.storedFaces = [] ∧ staleState.faceMatcher = none ∧
    staleState.isRecognizing = true ∧
    threeFaceTick.paused = false ∧ threeFaceTick.ended = false ∧
    threeFaceTick.faceApiLoaded = true ∧ threeFaceTick.detections.length = 3 ∧
    (recognizeFaces examplePlatform staleState threeFaceTick).overlayLabels.map
      (fun l => (l.label, l.recognized)) = [("Bob", true), ("Bob", true)] ∧
    ∃ rows, (recognizeFaces examplePlatform staleState threeFaceTick).resultsView
        = ResultsView.items rows ∧
      rows.map (fun r => (r.name, r.recognized)) = [("Bob", true), ("Bob", true)] := by
  have hlen : (run examplePlatform (initialState none) sampleRun).storedFaces.length ≠ 0 := by
    have hl := congrArg List.length sampleRun_storedFaces
    simp only [List.length_map, List.length_singleton] at hl
    rw [hl]
    decide
  have hstart := startRecognition_of_gallery _ hlen
  have htick := recognizeFaces_running examplePlatform
    (startRecognition (run examplePlatform (initialState none) sampleRun)) _ threeFaceTick _
    hstart.1 rfl rfl rfl (hstart.2.trans sampleRun_faceMatcher) (threeFaceTick_loop "Bob")
    (by simp [threeFaceTick])
  have hclear := clearAllData_confirmed (recognizeFaces examplePlatform
    (startRecognition (run examplePlatform (initialState none) sampleRun)) threeFaceTick)
  rw [← staleState_eq] at hclear
  have hsame := recognizeFaces_of_null_matcher examplePlatform staleState threeFaceTick
    hclear.2.1
  refine ⟨by simp [State.IsInitial, initialState], ⟨staleRun, rfl⟩, hclear.1, hclear.2.1, ?_,
    rfl, rfl, rfl, rfl, ?_, ?_⟩
  · rw [hclear.2.2.1, recognizeFaces_isRecognizing]
    exact hstart.1
  · rw [hsame, hclear.2.2.2.1, htick.1]
    simp [threeFaceTick, overlayLabelsFrom, overlayLabel, makeResult, zero_lt_pointSix]
  · refine ⟨resultItemsFrom 0 [makeResult { label := "Bob", distance := 0 } none,
      makeResult { label := "Bob", distance := 0 } none], ?_, ?_⟩
    · rw [hsame, hclear.2.2.2.2, htick.2]
      simp
    · simp [resultItemsFrom, resultItem, makeResult, zero_lt_pointSix]

/-- C12, amended: `updateFaceMatcher` on an empty `storedFaces` sets `faceMatcher` to
`null`; and while `faceMatcher` is `null` a tick of `recognizeFaces`, on any frame, returns
at once and leaves the whole state as it was: no exception is raised or caught, the matcher
is not queried, and the tick writes no result row and no overlay label, so that it reports
neither a name nor an unknown result, and the results panel and the overlay keep what they
showed before the tick. -/
theorem C12_empty_gallery_matcher (P : Platform) (s : State) (input : TickInput) :
    (s.storedFaces = [] → (updateFaceMatcher s).faceMatcher = none) ∧
    (s.faceMatcher = none →
      recognizeFaces P s input = s ∧
      (recognizeFaces P s input).resultsView = s.resultsView ∧
      (recognizeFaces P s input).overlayLabels = s.overlayLabels) := by
  refine ⟨?_, ?_⟩
  · intro hnil
    simp [updateFaceMatcher, hnil, buildMatcher_nil]
  · intro hnone
    have h := recognizeFaces_of_null_matcher P s input hnone
    exact ⟨h, by rw [h], by rw [h]⟩

theorem staleState_cleared :
    staleState.storedFaces = [] ∧ staleState.faceMatcher = none ∧
    staleState.isRecognizing = true := by
  have hlen : (run examplePlatform (initialState none) sampleRun).storedFaces.length ≠ 0 := by
    have hl := congrArg List.length sampleRun_storedFaces
    simp only [List.length_map, List.length_singleton] at hl
    rw [hl]
    decide
  have hclear := clearAllData_confirmed (recognizeFaces examplePlatform
    (startRecognition (run examplePlatform (initialState none) sampleRun)) threeFaceTick)
  rw [← staleState_eq] at hclear
  refine ⟨hclear.1, hclear.2.1, ?_⟩
  rw [hclear.2.2.1, recognizeFaces_isRecognizing]
  exact (startRecognition_of_gallery _ hlen).1

/-- C12 amended, at a tick that reaches the test of `faceMatcher`: on the page whose data
was cleared while the recognition loop was running, the gallery is empty, the matcher is
`null` and the loop runs; a tick on a playing frame with three faces, the library loaded,
leaves the page as it was. -/
theorem C12_empty_gallery_matcher_witness :
    staleState.storedFaces = [] ∧ staleState.faceMatcher = none ∧
    staleState.isRecognizing = true ∧
    threeFaceTick.paused = false ∧ threeFaceTick.ended = false ∧
    threeFaceTick.faceApiLoaded = true ∧
    (updateFaceMatcher staleState).faceMatcher = none ∧
    recognizeFaces examplePlatform staleState threeFaceTick = staleState :=
  have h := C12_empty_gallery_matcher examplePlatform staleState threeFaceTick
  ⟨staleState_cleared.1, staleState_cleared.2.1, staleState_cleared.2.2, rfl, rfl, rfl,
    h.1 staleState_cleared.1, (h.2 staleState_cleared.2.1).1⟩

/-! ## C7: strict threshold -/

theorem pointFiveNine_lt_pointSix :
    Num.lt (Num.fin pointFiveNine) (Num.fin pointSix) = true := by
  simp only [Num.lt, pointFiveNine, pointSix, decide_eq_true_eq]
  norm_num

theorem pointSix_not_lt_pointSix :
    Num.lt (Num.fin pointSix) (Num.fin pointSix) = false := by
  simp [Num.lt]

theorem pointSixOne_not_lt_pointSix :
    Num.lt (Num.fin pointSixOne) (Num.fin pointSix) = false := by
  simp only [Num.lt, pointSixOne, pointSix, decide_eq_false_iff_not, not_lt]
  norm_num

/-- A result for position `i` is the matcher's answer to the descriptor of the detection at
position `i`. -/
theorem resultFor_some (P : Platform) (matcher : FaceMatcher) (input : TickInput)
    (i : Nat) (r : RecognitionResult) (h : resultFor P matcher input i = some r) :
    ∃ d q found, input.detections.get? i = some d ∧ d.descriptor = some q ∧
      matcher.findBestMatch P q = some found ∧
      r = makeResult found (input.ageGenderDetections.get? i) := by
  unfold resultFor at h
  cases hd : input.detections.get? i with
  | none =>
    rw [hd] at h
    exact absurd h (by simp)
  | some d =>
    rw [hd, Option.some_bind] at h
    cases hq : d.descriptor with
    | none =>
      rw [hq] at h
      exact absurd h (by simp)
    | some q =>
      rw [hq, Option.some_bind] at h
      cases hf : matcher.findBestMatch P q with
      | none =>
        rw [hf] at h
        exact absurd h (by simp)
      | some found =>
        rw [hf] at h
        simp only [Option.map_some', Option.some.injEq] at h
        exact ⟨d, q, found, rfl, hq, hf, h.symm⟩

/-- C7: in a tick of `recognizeFaces` with the loop running, the video playing and a
matcher that indexes at least one descriptor, the loop over the detections completes; each
of the first two detections that carries a descriptor gets a result, built from the
matcher's answer to that descriptor; and every result of the tick carries the threshold
0.6, bears the name and the distance of such an answer, and is shown in the results panel
and on the overlay as recognized, under the matcher's name, exactly when its distance is
strictly less than the double 0.6, and as "Unknown" otherwise.  So a distance of 0.59 is
shown as recognized, and a distance of exactly 0.6 or of 0.61 is shown as "Unknown". -/
theorem C7_strict_threshold (P : Platform) (s : State) (matcher : FaceMatcher)
    (input : TickInput)
    (hrun : s.isRecognizing = true) (hpaused : input.paused = false)
    (hended : input.ended = false) (hloaded : input.faceApiLoaded = true)
    (hm : s.faceMatcher = some matcher)
    (hidx : ∃ ld ∈ matcher.labeledDescriptors, ld.descriptors ≠ []) :
    ∃ results : List RecognitionResult,
      recognizeLoop P matcher input (min input.detections.length 2) 0 [] = some results ∧
      (∀ (i : Nat) (d : FaceDetection) (q : Float32Array), i < 2 →
        input.detections.get? i = some d → d.descriptor = some q →
        ∃ found, matcher.findBestMatch P q = some found ∧
          makeResult found (input.ageGenderDetections.get? i) ∈ results) ∧
      ∀ (k : Nat) (r : RecognitionResult), results.get? k = some r →
        r.threshold = Num.fin pointSix ∧
        (∃ (i : Nat) (d : FaceDetection) (q : Float32Array) (found : FaceMatch),
          i < 2 ∧ input.detections.get? i = some d ∧ d.descriptor = some q ∧
          matcher.findBestMatch P q = some found ∧
          r.name = found.label ∧ r.distance = found.distance) ∧
        ∃ (rows : List ResultItem) (row : ResultItem) (label : OverlayLabel),
          (recognizeFaces P s input).resultsView = ResultsView.items rows ∧
          rows.get? k = some row ∧
          (recognizeFaces P s input).overlayLabels.get? k = some label ∧
          row.distance = r.distance ∧
          row.recognized = Num.lt r.distance (Num.fin pointSix) ∧
          row.name = (if Num.lt r.distance (Num.fin pointSix) then r.name else "Unknown") ∧
          label.recognized = Num.lt r.distance (Num.fin pointSix) ∧
          label.label = (if Num.lt r.distance (Num.fin pointSix) then r.name else "Unknown") ∧
          (r.distance = Num.fin pointFiveNine →
            row.name = r.name ∧ row.recognized = true ∧
            label.label = r.name ∧ label.recognized = true) ∧
          (r.distance = Num.fin pointSix →
            row.name = "Unknown" ∧ row.recognized = false ∧
            label.label = "Unknown" ∧ label.recognized = false) ∧
          (r.distance = Num.fin pointSixOne →
            row.name = "Unknown" ∧ row.recognized = false ∧
            label.label = "Unknown" ∧ label.recognized = false) := by
  rcases recognizeLoop_isSome P matcher input hidx (min input.detections.length 2) 0 []
    (by simp) with ⟨results, hloop⟩
  have hcap := recognizeLoop_capped P matcher input results hloop
  refine ⟨results, hloop, ?_, ?_⟩
  · intro i d q hi hd hq
    rcases findBestMatch_isSome P matcher hidx q with ⟨found, hfound⟩
    refine ⟨found, hfound, ?_⟩
    have hin : i < input.detections.length := by
      rcases Nat.lt_or_ge i input.detections.length with h | h
      · exact h
      · rw [List.get?_eq_none.mpr h] at hd
        exact absurd hd (by simp)
    rw [hcap, cappedResults, List.mem_filterMap]
    refine ⟨i, List.mem_range.mpr (lt_min_iff.mpr ⟨hi, hin⟩), ?_⟩
    unfold resultFor
    rw [hd, Option.some_bind, hq, Option.some_bind, hfound]
    rfl
  · intro k r hk
    have hmem : r ∈ results := List.get?_mem hk
    have hmem2 := hmem
    rw [hcap, cappedResults, List.mem_filterMap] at hmem2
    rcases hmem2 with ⟨i, hi, hres⟩
    rw [List.mem_range, lt_min_iff] at hi
    rcases resultFor_some P matcher input i r hres with ⟨d, q, found, hd, hq, hf, hr⟩
    have hthr : r.threshold = Num.fin pointSix := by rw [hr]; rfl
    have hklt : k < results.length := by
      rcases Nat.lt_or_ge k results.length with h | h
      · exact h
      · rw [List.get?_eq_none.mpr h] at hk
        exact absurd hk (by simp)
    have hlen2 : results.length ≤ min 2 input.detections.length := by
      rw [hcap]
      exact cappedResults_length P matcher input
    have hk2 : k < 2 := lt_of_lt_of_le hklt (hlen2.trans (min_le_left _ _))
    have hkin : k < input.detections.length :=
      lt_of_lt_of_le hklt (hlen2.trans (min_le_right _ _))
    have hne : input.detections ≠ [] := by
      intro hnil
      rw [hnil] at hkin
      simp at hkin
    have hlen : ¬ results.length = 0 := by omega
    rcases recognizeFaces_running P s matcher input results hrun hpaused hended hloaded hm
      hloop hne with ⟨hlabels, hview⟩
    have hbox : ((input.detections.map (fun e => input.resizeBox e.box)).take 2).get? k
        = some (input.resizeBox (input.detections.get ⟨k, hkin⟩).box) := by
      rw [List.get?_eq_getElem?, List.getElem?_take, if_pos hk2, List.getElem?_map,
        ← List.get?_eq_getElem?, List.get?_eq_get hkin]
      rfl
    have hrow : (resultItem k r).recognized = Num.lt r.distance (Num.fin pointSix) ∧
        (resultItem k r).name
          = (if Num.lt r.distance (Num.fin pointSix) then r.name else "Unknown") ∧
        (resultItem k r).distance = r.distance := by
      simp [resultItem, hthr]
    have hlab : ∀ box : Box,
        (overlayLabel results k box).recognized = Num.lt r.distance (Num.fin pointSix) ∧
        (overlayLabel results k box).label
          = (if Num.lt r.distance (Num.fin pointSix) then r.name else "Unknown") := by
      intro box
      unfold overlayLabel
      rw [hk]
      simp [hthr]
    refine ⟨hthr, ⟨i, d, q, found, hi.1, hd, hq, hf, by rw [hr]; rfl, by rw [hr]; rfl⟩,
      resultItemsFrom 0 results, resultItem k r,
      overlayLabel results k (input.resizeBox (input.detections.get ⟨k, hkin⟩).box),
      by rw [hview, if_neg hlen], ?_, ?_, hrow.2.2, hrow.1, hrow.2.1, (hlab _).1, (hlab _).2,
      ?_, ?_, ?_⟩
    · rw [resultItemsFrom_get?, hk]
      simp
    · rw [hlabels, overlayLabelsFrom_get?, hbox]
      simp
    · intro hdist
      rw [hrow.1, hrow.2.1, (hlab _).1, (hlab _).2, hdist, pointFiveNine_lt_pointSix]
      exact ⟨rfl, rfl, rfl, rfl⟩
    · intro hdist
      rw [hrow.1, hrow.2.1, (hlab _).1, (hlab _).2, hdist, pointSix_not_lt_pointSix]
      exact ⟨rfl, rfl, rfl, rfl⟩
    · intro hdist
      rw [hrow.1, hrow.2.1, (hlab _).1, (hlab _).2, hdist, pointSixOne_not_lt_pointSix]
      exact ⟨rfl, rfl, rfl, rfl⟩

theorem findBestMatch_border :
    aliceMatcher.findBestMatch borderPlatform sampleDescriptor
      = some { label := "unknown", distance := Num.fin pointSix } := by
  simp only [FaceMatcher.findBestMatch, FaceMatcher.candidates, aliceMatcher,
    List.flatMap_cons, List.flatMap_nil, List.map_cons, List.map_nil, List.append_nil,
    bestCandidate, List.foldl_nil, borderPlatform, pointSix_not_lt_pointSix]
  rfl

theorem threeFaceTick_loop_border :
    recognizeLoop borderPlatform aliceMatcher threeFaceTick
      (min threeFaceTick.detections.length 2) 0 []
      = some [makeResult { label := "unknown", distance := Num.fin pointSix } none,
              makeResult { label := "unknown", distance := Num.fin pointSix } none] := by
  have hmin : min threeFaceTick.detections.length 2 = 2 := by decide
  rw [hmin]
  simp only [recognizeLoop, recognizeAt, threeFaceTick, List.get?_cons_zero,
    List.get?_cons_succ, List.get?_nil, findBestMatch_border, List.nil_append,
    List.cons_append]

/-- C7 at two concrete ticks on a frame with three faces, "Alice" in the gallery.  When
the distance to "Alice" is the double 0.6, the first row of the results panel and the
first label read "Unknown"; when the distance is 0, they read "Alice", recognized. -/
theorem C7_strict_threshold_witness :
    (∃ (rows : List ResultItem) (row : ResultItem) (label : OverlayLabel),
      (recognizeFaces borderPlatform runningState threeFaceTick).resultsView
        = ResultsView.items rows ∧
      rows.get? 0 = some row ∧
      (recognizeFaces borderPlatform runningState threeFaceTick).overlayLabels.get? 0
        = some label ∧
      row.distance = Num.fin pointSix ∧ row.name = "Unknown" ∧ row.recognized = false ∧
      label.label = "Unknown" ∧ label.recognized = false) ∧
    (∃ (rows : List ResultItem) (row : ResultItem) (label : OverlayLabel),
      (recognizeFaces examplePlatform runningState threeFaceTick).resultsView
        = ResultsView.items rows ∧
      rows.get? 0 = some row ∧
      (recognizeFaces examplePlatform runningState threeFaceTick).overlayLabels.get? 0
        = some label ∧
      row.distance = 0 ∧ row.name = "Alice" ∧ row.recognized = true ∧
      label.label = "Alice" ∧ label.recognized = true) := by
  constructor
  · rcases C7_strict_threshold borderPlatform runningState aliceMatcher threeFaceTick
      runningState_isRecognizing rfl rfl rfl runningState_faceMatcher aliceMatcher_indexes
      with ⟨results, hl, _, hall⟩
    rw [threeFaceTick_loop_border, Option.some.injEq] at hl
    rcases hall 0 (makeResult { label := "unknown", distance := Num.fin pointSix } none)
      (by rw [← hl]; rfl) with
      ⟨_, _, rows, row, label, hview, hrow, hlabel, hdist, _, _, _, _, _, h6, _⟩
    have h := h6 rfl
    exact ⟨rows, row, label, hview, hrow, hlabel, hdist, h.1, h.2.1, h.2.2.1, h.2.2.2⟩
  · rcases C7_strict_threshold examplePlatform runningState aliceMatcher threeFaceTick
      runningState_isRecognizing rfl rfl rfl runningState_faceMatcher aliceMatcher_indexes
      with ⟨results, hl, _, hall⟩
    have hloop : recognizeLoop examplePlatform aliceMatcher threeFaceTick
        (min threeFaceTick.detections.length 2) 0 []
        = some [makeResult { label := "Alice", distance := 0 } none,
                makeResult { label := "Alice", distance := 0 } none] :=
      threeFaceTick_loop "Alice"
    rw [hloop, Option.some.injEq] at hl
    rcases hall 0 (makeResult { label := "Alice", distance := 0 } none)
      (by rw [← hl]; rfl) with
      ⟨_, _, rows, row, label, hview, hrow, hlabel, hdist, hrec, hname, hlrec, hlname, _⟩
    have hlt : Num.lt (makeResult { label := "Alice", distance := 0 } none).distance
        (Num.fin pointSix) = true := zero_lt_pointSix
    rw [hlt] at hrec hname hlrec hlname
    exact ⟨rows, row, label, hview, hrow, hlabel, hdist, hname, hrec, hlname, hlrec⟩

end FaceApp
